import Mathlib

/-!
Verification of the `submissions-infrastructure` deployment engine.

This file gives a shallow embedding, in Lean 4, of the tier-deployment
orchestrator (`scripts/engine/deploy.py`), its validators
(`scripts/engine/validators.py`), and the blue/green promotion protocol,
and proves properties of the embedded definitions.

Modelling conventions:
- Python `pathlib.Path` values are modelled as `PyPath`: an absoluteness flag
  plus a list of components.  `Path.resolve()` is modelled as lexical
  normalisation of `.` / `..` components (the mock filesystem used by the
  engine has no directory symlinks, so lexical resolution coincides).
- The injected `FileSystemProtocol` state is modelled as `FS` (sets of
  directories and files, mirroring `MockFileSystem` in
  `scripts/engine/filesystem.py`), and each run threads a `World` that also
  records the trace of filesystem / command / log events.
- Machine integers do not occur; disk-space arithmetic uses `ℚ` for Python
  floats (the guarded comparisons involve only exact decimal constants).
- External reads that the engine performs outside the injected filesystem
  (real statvfs, reading YAML definition files, subprocess exit codes,
  wall-clock timestamps) are supplied as oracle fields of `DeployCtx`.
-/

namespace Submissions

/-- A Python `pathlib` path: absoluteness flag plus components.
Components never contain `/`, and `.` components are dropped on
construction, mirroring `PurePath` normalisation. -/
structure PyPath where
  absolute : Bool := true
  parts : List String
deriving DecidableEq, Repr

/-- Split a character list at `/` (Python `str.split("/")` on the
character level). -/
def splitSlashAux : List Char → List Char → List (List Char)
  | [], acc => [acc.reverse]
  | c :: rest, acc =>
    if c = '/' then acc.reverse :: splitSlashAux rest []
    else splitSlashAux rest (c :: acc)

/-- Python `s.split("/")`. -/
def pySplitSlash (s : String) : List String :=
  (splitSlashAux s.data []).map (fun cs => (⟨cs⟩ : String))

/-- Python `s.startswith(p)` (character-level). -/
def strStarts (s p : String) : Bool :=
  s.data.take p.data.length == p.data

/-- Python `s.endswith(p)` (character-level). -/
def strEnds (s p : String) : Bool :=
  s.data.drop (s.data.length - p.data.length) == p.data && p.data.length ≤ s.data.length

/-- Drop the first `n` characters. -/
def strDrop (s : String) (n : Nat) : String :=
  ⟨s.data.drop n⟩

/-- Drop the last `n` characters. -/
def strDropRight (s : String) (n : Nat) : String :=
  ⟨s.data.take (s.data.length - n)⟩

/-- Split a path-like string into `pathlib` components: split on `/`,
dropping empty components and `.` components (as `PurePath` does). -/
def pathComps (s : String) : List String :=
  (pySplitSlash s).filter (fun c => c ≠ "" && c ≠ ".")

/-- Join `p / s` for a Python path and a (possibly multi-component) string.
The deployment code never joins with an absolute string, so the
anchor-replacement case of `pathlib` is not modelled. -/
def PyPath.join (p : PyPath) (s : String) : PyPath :=
  ⟨p.absolute, p.parts ++ pathComps s⟩

/-- Lexical normalisation of components: `..` pops the previous component
(and is dropped at the root, as `Path("/..").resolve()` gives `/`). -/
def normComps (ps : List String) : List String :=
  (ps.foldl (fun acc c => if c = ".." then acc.tail else c :: acc) []).reverse

/-- Model of `Path.resolve()` on an absolute path: lexical normalisation.
(The engine only resolves paths that are already absolute; the model has no
directory symlinks.) -/
def PyPath.resolve (p : PyPath) : PyPath :=
  ⟨true, normComps p.parts⟩

/-- Python `Path.stem` of the final component: the name minus its last
suffix; a leading dot alone does not start a suffix. -/
def pyStemName (name : String) : String :=
  let cs := name.data
  let rec go : List Char → Option (List Char)
    | [] => none
    | c :: rest =>
      match go rest with
      | some r => some (c :: r)
      | none => if c = '.' ∧ rest ≠ [] then some [] else none
  match cs with
  | [] => ""
  | c :: rest =>
    match go rest with
    | some r => ⟨c :: r⟩
    | none => name

/-- Python `Path.stem` for a `PyPath` (stem of the last component). -/
def PyPath.stem (p : PyPath) : String :=
  pyStemName (p.parts.getLast?.getD "")

/-- Render a path for use in log messages and commands. -/
def PyPath.toStr (p : PyPath) : String :=
  (if p.absolute then "/" else "") ++ String.intercalate "/" p.parts

/-- Whether `a` is an initial segment of `b` (list version of "lexically within"). -/
def initSeg (a b : List String) : Bool :=
  b.take a.length == a

/-- Filesystem state, mirroring `MockFileSystem` in
`scripts/engine/filesystem.py` (the symlink table is empty throughout the
deployment flow and is omitted). -/
structure FS where
  dirs : List PyPath
  files : List PyPath
deriving DecidableEq, Repr

def FS.isDir (fs : FS) (p : PyPath) : Bool := fs.dirs.contains p

def FS.isFile (fs : FS) (p : PyPath) : Bool := fs.files.contains p

def FS.pathExists (fs : FS) (p : PyPath) : Bool :=
  fs.dirs.contains p || fs.files.contains p

/-- All nonempty initial segments of a path (the path and its ancestors),
as paths with the same absoluteness. -/
def ancestorsOf (p : PyPath) : List PyPath :=
  (List.range p.parts.length).map (fun i => ⟨p.absolute, p.parts.take (i + 1)⟩)

/-- Model of `mkdir`: add the directory, and with `parents := true` also every
missing ancestor.  (`FileExistsError` for `exist_ok = false` on an existing
directory is not modelled: the engine's only `mkdir` without `exist_ok`
immediately follows `rmtree` of the same path.) -/
def FS.mkdirSet (fs : FS) (p : PyPath) (parents : Bool) : FS :=
  { fs with dirs := p :: (if parents then ancestorsOf p else []) ++ fs.dirs }

/-- Model of `rmtree`: remove the path and everything below it. -/
def FS.rmtreeSet (fs : FS) (p : PyPath) : FS :=
  { dirs := fs.dirs.filter (fun q => ¬ (q = p ∨ (initSeg p.parts q.parts ∧ p.absolute = q.absolute))),
    files := fs.files.filter (fun q => ¬ (q = p ∨ (initSeg p.parts q.parts ∧ p.absolute = q.absolute))) }

/-- Model of `copytree`: mark the destination directory present (tree contents are
not tracked; the event trace records the copy itself). -/
def FS.copytreeSet (fs : FS) (dst : PyPath) : FS :=
  { fs with dirs := dst :: fs.dirs }

/-- Write a flat file. -/
def FS.writeFileSet (fs : FS) (p : PyPath) : FS :=
  { fs with files := p :: fs.files }

/-- One observable step of a deployment run. -/
inductive FSEvent where
  | mkdirEv (p : PyPath) (parents : Bool)
  | rmtreeEv (p : PyPath)
  | copytreeEv (src dst : PyPath) (symlinks : Bool)
  | writeFileEv (p : PyPath)
  | runEv (args : List String)
  | logWarn (msg : String)
  | logInfo (msg : String)
  | logErr (msg : String)
  | logCritical (msg : String)
deriving DecidableEq, Repr

/-- Filesystem state together with the recorded event trace. -/
structure World where
  fs : FS
  events : List FSEvent
deriving DecidableEq, Repr

def World.mkdir (w : World) (p : PyPath) (parents : Bool) : World :=
  { fs := w.fs.mkdirSet p parents, events := w.events ++ [.mkdirEv p parents] }

def World.rmtree (w : World) (p : PyPath) : World :=
  { fs := w.fs.rmtreeSet p, events := w.events ++ [.rmtreeEv p] }

def World.copytree (w : World) (src dst : PyPath) (symlinks : Bool) : World :=
  { fs := w.fs.copytreeSet dst, events := w.events ++ [.copytreeEv src dst symlinks] }

def World.writeFile (w : World) (p : PyPath) : World :=
  { fs := w.fs.writeFileSet p, events := w.events ++ [.writeFileEv p] }

def World.runCmd (w : World) (args : List String) : World :=
  { w with events := w.events ++ [.runEv args] }

def World.warn (w : World) (m : String) : World :=
  { w with events := w.events ++ [.logWarn m] }

def World.note (w : World) (m : String) : World :=
  { w with events := w.events ++ [.logInfo m] }

def World.err (w : World) (m : String) : World :=
  { w with events := w.events ++ [.logErr m] }

def World.crit (w : World) (m : String) : World :=
  { w with events := w.events ++ [.logCritical m] }

/-- Events that remove or copy trees (the destructive mutations). -/
def FSEvent.destructive : FSEvent → Bool
  | .rmtreeEv _ => true
  | .copytreeEv _ _ _ => true
  | _ => false

/-- Whether an event creates the directory `p` (a `mkdir` of `p`, a
`mkdir` with `parents := true` of a path at or below `p`, or a tree copy
whose destination is `p`). -/
def FSEvent.createsDir (e : FSEvent) (p : PyPath) : Bool :=
  match e with
  | .mkdirEv q parents => q = p || (parents && (ancestorsOf q).contains p)
  | .copytreeEv _ dst _ => dst = p
  | _ => false

/-- Whether an event is a `copytree`. -/
def FSEvent.isCopy : FSEvent → Bool
  | .copytreeEv _ _ _ => true
  | _ => false

/-- Whether an event is a warning log line. -/
def FSEvent.isWarn : FSEvent → Bool
  | .logWarn _ => true
  | _ => false

/-! ## String helpers shared by the validator embeddings -/

/-- The characters `str.strip()` removes (Python whitespace). -/
def pyIsSpace (c : Char) : Bool :=
  c = ' ' || c = '\t' || c = '\n' || c = '\r' || c = '\x0b' || c = '\x0c'

/-- Truthiness of `s.strip()`: `false` exactly when `s` is empty or all
whitespace. -/
def pyStripTruthy (s : String) : Bool :=
  s.data.any (fun c => ¬ pyIsSpace c)

/-- Python `c in s` for a character. -/
def strHasChar (s : String) (c : Char) : Bool :=
  s.data.contains c

/-- Python `str.capitalize()`: first character upper-cased, the rest
lower-cased. -/
def pyCapitalize (s : String) : String :=
  match s.data with
  | [] => ""
  | c :: rest => ⟨c.toUpper :: rest.map Char.toLower⟩

/-- Round a rational to the nearest integer, ties to even (the rounding
used when Python formats a float with `:.1f`, on exactly representable
inputs). -/
def roundHalfEven (q : ℚ) : ℤ :=
  let f : ℤ := q.floor
  if q - f < 1/2 then f
  else if q - f > 1/2 then f + 1
  else if f % 2 = 0 then f else f + 1

/-- Model of formatting a float with `:.1f`. -/
def fmtFixed1 (q : ℚ) : String :=
  let n := roundHalfEven (q * 10)
  let m := n.natAbs
  (if n < 0 then "-" else "") ++ toString (m / 10) ++ "." ++ toString (m % 10)

/-- Whether `sub` occurs as a contiguous substring of `s`. -/
def strContains (s sub : String) : Prop :=
  ∃ pre post : List Char, s.data = pre ++ sub.data ++ post

/-! ## Embedding of `scripts/engine/validators.py` -/

/-- A parsed YAML value (`yaml.safe_load` result), restricted to the
shapes the validator inspects: scalars, sequences, and string-keyed
mappings. -/
inductive Yaml where
  | str (s : String)
  | num (n : ℤ)
  | bool (b : Bool)
  | null
  | list (xs : List Yaml)
  | dict (kvs : List (String × Yaml))

/-- Python `type(x).__name__` for message formatting. -/
def Yaml.typeName : Yaml → String
  | .str _ => "str"
  | .num _ => "int"
  | .bool _ => "bool"
  | .null => "NoneType"
  | .list _ => "list"
  | .dict _ => "dict"

/-- Key lookup in a (unique-keyed) mapping. -/
def Yaml.lookup (kvs : List (String × Yaml)) (k : String) : Option Yaml :=
  match kvs.find? (fun kv => kv.fst = k) with
  | some kv => some kv.snd
  | none => none

/-- Source lines validators.py:100-108: the known-channel set. -/
def valid_channels : List String :=
  ["conda-forge", "bioconda", "defaults", "anaconda", "r", "pytorch", "nvidia"]

/-- Source lines validators.py:97-133 (`_validate_channel_name`). -/
def _validate_channel_name (channel : String) (index : Nat) (path : String) :
    Except String Unit :=
  if valid_channels.contains channel then .ok ()
  else if strStarts channel "http://" || strStarts channel "https://"
      || strStarts channel "file://" then .ok ()
  else if strHasChar channel '/' &&
      (let ps := pySplitSlash channel
       decide (ps.length ≥ 2) && ps.all pyStripTruthy) then .ok ()
  else if [' ', '\n', '\t', '\r'].any (strHasChar channel) then
    .error ("Channel at index " ++ toString index ++
      " contains invalid whitespace in " ++ path ++ ": " ++ channel)
  else .ok ()

/-- One iteration of the loop in `_validate_channels` (validators.py:85-94). -/
def checkChannelAt (i : Nat) (path : String) : Yaml → Except String Unit
  | .str channel =>
    if ¬ pyStripTruthy channel then
      .error ("Channel at index " ++ toString i ++ " cannot be empty in " ++ path)
    else _validate_channel_name channel i path
  | other =>
    .error ("Channel at index " ++ toString i ++ " must be a string in " ++
      path ++ ", got " ++ other.typeName)

/-- The indexed loop over the channels list. -/
def checkChannelsFrom (path : String) : Nat → List Yaml → Except String Unit
  | _, [] => .ok ()
  | i, c :: rest => do
    checkChannelAt i path c
    checkChannelsFrom path (i + 1) rest

/-- Source lines validators.py:75-94 (`_validate_channels`). -/
def _validate_channels (channels : Yaml) (path : String) : Except String Unit :=
  match channels with
  | .list cs =>
    if cs.isEmpty then
      .error ("channels list cannot be empty in " ++ path)
    else checkChannelsFrom path 0 cs
  | other =>
    .error ("channels must be a list in " ++ path ++ ", got " ++ other.typeName)

/-- Source lines validators.py:157-179 (`_validate_string_dependency`). -/
def _validate_string_dependency (dep : String) (index : Nat) (path : String) :
    Except String Unit :=
  if ¬ pyStripTruthy dep then
    .error ("Dependency at index " ++ toString index ++ " cannot be empty in " ++ path)
  else if strHasChar dep '\n' then
    .error ("Dependency at index " ++ toString index ++
      " contains invalid character LF in " ++ path)
  else if strHasChar dep '\r' then
    .error ("Dependency at index " ++ toString index ++
      " contains invalid character CR in " ++ path)
  else if strHasChar dep '\t' then
    .error ("Dependency at index " ++ toString index ++
      " contains invalid character TAB in " ++ path)
  else .ok ()

/-- One pip entry check inside `_validate_dict_dependency`
(validators.py:190-198). -/
def checkPipAt (index j : Nat) (path : String) : Yaml → Except String Unit
  | .str pipDep =>
    if ¬ pyStripTruthy pipDep then
      .error ("Dependency at index " ++ toString index ++ ": pip dependency at index "
        ++ toString j ++ " cannot be empty in " ++ path)
    else .ok ()
  | other =>
    .error ("Dependency at index " ++ toString index ++ ": pip dependency at index "
      ++ toString j ++ " must be a string in " ++ path ++ ", got " ++ other.typeName)

def checkPipFrom (index : Nat) (path : String) : Nat → List Yaml → Except String Unit
  | _, [] => .ok ()
  | j, d :: rest => do
    checkPipAt index j path d
    checkPipFrom index path (j + 1) rest

/-- Source lines validators.py:181-201 (`_validate_dict_dependency`):
unknown mapping shapes are tolerated. -/
def _validate_dict_dependency (kvs : List (String × Yaml)) (index : Nat)
    (path : String) : Except String Unit :=
  match Yaml.lookup kvs "pip" with
  | none => .ok ()
  | some (.list pipDeps) => checkPipFrom index path 0 pipDeps
  | some other =>
    .error ("Dependency at index " ++ toString index ++ ": pip value must be a list in "
      ++ path ++ ", got " ++ other.typeName)

/-- One iteration of the loop in `_validate_dependencies`
(validators.py:146-154). -/
def checkDependencyAt (i : Nat) (path : String) : Yaml → Except String Unit
  | .str dep => _validate_string_dependency dep i path
  | .dict kvs => _validate_dict_dependency kvs i path
  | other =>
    .error ("Dependency at index " ++ toString i ++ " must be a string or dict in "
      ++ path ++ ", got " ++ other.typeName)

def checkDependenciesFrom (path : String) : Nat → List Yaml → Except String Unit
  | _, [] => .ok ()
  | i, d :: rest => do
    checkDependencyAt i path d
    checkDependenciesFrom path (i + 1) rest

/-- Source lines validators.py:136-154 (`_validate_dependencies`). -/
def _validate_dependencies (dependencies : Yaml) (path : String) :
    Except String Unit :=
  match dependencies with
  | .list ds =>
    if ds.isEmpty then
      .error ("dependencies list cannot be empty in " ++ path)
    else checkDependenciesFrom path 0 ds
  | other =>
    .error ("dependencies must be a list in " ++ path ++ ", got " ++ other.typeName)

/-- Source lines validators.py:65-72 (`_validate_required_keys`). -/
def _validate_required_keys (kvs : List (String × Yaml)) (path : String) :
    Except String Unit :=
  let keys := kvs.map Prod.fst
  let missing := ["channels", "dependencies"].filter (fun k => ¬ keys.contains k)
  if missing.isEmpty then .ok ()
  else
    .error ("Missing required keys in " ++ path ++ ": " ++
      String.intercalate ", " missing)

/-- Embedding of `validate_env_yaml` (validators.py:17-62) from the point
where the YAML document has been read and parsed (file existence and YAML
parsing are I/O preludes whose failures also raise `ValidationError`). -/
def validate_env_yaml (data : Yaml) (path : String) : Except String Bool := do
  match data with
  | .dict kvs =>
    _validate_required_keys kvs path
    _validate_channels ((Yaml.lookup kvs "channels").getD .null) path
    _validate_dependencies ((Yaml.lookup kvs "dependencies").getD .null) path
    return true
  | other =>
    .error ("Expected YAML to contain a dictionary, got " ++ other.typeName)

/-! ### Disk-space guard -/

/-- Source lines validators.py:371-405 (`estimate_env_size_gb`), applied to
an already-parsed definition (`none` stands for an unreadable or invalid
file, which contributes the conservative flat 2 GB). -/
def estimate_env_size_gb (parsed : Option Yaml) : ℚ :=
  match parsed with
  | none => 2
  | some envDef =>
    let deps : List Yaml :=
      match envDef with
      | .dict kvs =>
        match Yaml.lookup kvs "dependencies" with
        | some (.list ds) => ds
        | _ => []
      | _ => []
    let pkgCount : ℕ := deps.length + (deps.map (fun d =>
      match d with
      | .dict kvs =>
        match Yaml.lookup kvs "pip" with
        | some (.list pipDeps) => pipDeps.length
        | _ => 0
      | _ => 0)).sum
    ((pkgCount : ℚ) * 50) / 1024 * (3 / 2)

/-- The static per-operation thresholds `(minimum, recommended)`
(validators.py:442-447). -/
def diskThresholds (operation : String) : ℚ × ℚ :=
  if operation = "bootstrap" then (5, 10)
  else if operation = "deploy" then (15, 30)
  else (10, 20)

/-- Embedding of `check_disk_space` (validators.py:408-487).
`availableGb` stands for `get_available_space_gb(path)` (a statvfs read),
and `envSizes` for the per-file `estimate_env_size_gb` results of the
`env_yamls` argument (`[]` both for `None` and for an empty list, matching
Python truthiness).  `.error` is a raised `DiskSpaceError`. -/
def check_disk_space (availableGb : ℚ) (operation : String)
    (envSizes : List ℚ) (force : Bool) : Except String (Bool × String) :=
  match diskThresholds operation with
  | (minimumGb, recommendedGb) =>
  if availableGb < minimumGb then
    let errorMsg :=
      "Insufficient disk space for " ++ operation ++ "\n" ++
      "Available: " ++ fmtFixed1 availableGb ++ "GB" ++ "\n" ++
      "Required: " ++ toString minimumGb.num ++ "GB minimum" ++ "\n"
    if force then
      .ok (true, errorMsg ++ "WARNING" ++ ": Proceeding anyway due to --force flag")
    else
      .error (errorMsg ++ pyCapitalize operation ++ " requires at least " ++
        toString minimumGb.num ++ "GB of free space." ++ "\n" ++
        "Use --force to override.")
  else if ¬ envSizes.isEmpty ∧ availableGb < envSizes.sum + 10 then
    .ok (true,
      "WARNING: Disk space may be tight for " ++ operation ++ "\n" ++
      "Available: " ++ fmtFixed1 availableGb ++ "GB\n" ++
      "Estimated need: ~" ++ fmtFixed1 (envSizes.sum + 10) ++ "GB\n" ++
      "Operation may fail if estimate is accurate.")
  else if availableGb < recommendedGb then
    .ok (true,
      "INFO: " ++ fmtFixed1 availableGb ++ "GB available. " ++
      toString recommendedGb.num ++ "GB recommended for comfortable " ++ operation ++ ".")
  else
    .ok (true, "")

/-! ## Embedding of `scripts/engine/deploy.py` -/

/-- No newline character in the string (`.` in a Python regex matches any
character except a newline). -/
def noNewline (s : String) : Bool := ¬ strHasChar s '\n'

/-- The alternation `blue|green|staging|production|dev.*|test.*`. -/
def tierNameCore (t : String) : Bool :=
  t == "blue" || t == "green" || t == "staging" || t == "production" ||
  (strStarts t "dev" && noNewline (strDrop t 3)) ||
  (strStarts t "test" && noNewline (strDrop t 4))

/-- Python `re.match` of the anchored tier-name pattern of
deploy.py:138 (a `$` also matches just before one trailing newline). -/
def pyMatchTierName (t : String) : Bool :=
  tierNameCore t || (strEnds t "\n" && tierNameCore (strDropRight t 1))

/-- The alternation `dev.*|test.*|staging` used by the tier-reset policy
(deploy.py:75). -/
def resetNameCore (t : String) : Bool :=
  (strStarts t "dev" && noNewline (strDrop t 3)) ||
  (strStarts t "test" && noNewline (strDrop t 4)) ||
  t == "staging"

/-- Python `re.match` of the anchored reset pattern. -/
def pyMatchResetName (t : String) : Bool :=
  resetNameCore t || (t.endsWith "\n" && resetNameCore (t.dropRight 1))

/-- Source deploy.py:99-114 (`validate_tier_path`): the pure path
computation `(target / "infrastructure" / tier).resolve()`. -/
def validate_tier_path (target : PyPath) (tier : String) : PyPath :=
  ((target.join "infrastructure").join tier).resolve

/-- Modelled from the spec: `validate_safe_path(tier_path, target)` is
requested by deploy.py from the validators module, but validators.py does
not define it (nor `PathTraversalError`); only this caller exists in the
sources.  Spec section 4.1 step (4): "resolved tier path must be lexically
contained within `target` (reject `..`-style escapes) — violation raises a
path-traversal error". -/
def validate_safe_path (tierPath target : PyPath) : Bool :=
  initSeg (target.resolve).parts tierPath.parts && target.resolve.absolute = tierPath.absolute

/-- Source deploy.py:117-159 (`setup_tier_path`).  The `Except ℕ` error is
a `sys.exit` with that code. -/
def setup_tier_path (target : PyPath) (tier : String) (w : World) :
    (Except Nat PyPath) × World :=
  let w := w.note ("target=" ++ target.toStr)
  let w := w.note ("tier=" ++ tier)
  if ¬ target.absolute then
    (.error 3, w.crit ("Target directory must be an absolute path: " ++ target.toStr))
  else if ¬ pyMatchTierName tier then
    (.error 3, w.crit ("Invalid tier name: " ++ tier ++
      ". Must match pattern: blue|green|staging|production|dev.*|test.*"))
  else if ¬ w.fs.isDir target then
    (.error 3, w.crit ("Target directory does not exist or is not a directory: " ++
      target.toStr))
  else
    let tierPath := validate_tier_path target tier
    if ¬ validate_safe_path tierPath target then
      (.error 3, w.crit ("Path traversal detected: " ++ tierPath.toStr))
    else
      let w := w.note ("tier_path=" ++ tierPath.toStr)
      if ¬ w.fs.isDir tierPath then
        (.ok tierPath, w.mkdir tierPath true)
      else
        (.ok tierPath, w)

/-- Oracles for the parts of a deployment run that live outside the
injected filesystem: module-level path constants resolved from the running
executable (`MAMBA`, `CODE_ROOT_DIR`, resource directories), the statvfs
disk-space reading, the auto-discovered worklist with its per-file size
estimates, real-filesystem reads of definition files, subprocess exit
codes, and the wall-clock timestamp. -/
structure DeployCtx where
  mamba : PyPath
  codeRootDir : PyPath
  defsDir : PyPath
  binSourceDir : PyPath
  etcSourceDir : PyPath
  availableGb : ℚ
  worklist : List PyPath
  envSize : PyPath → ℚ
  yamlOnDisk : PyPath → Bool
  yamlCheck : PyPath → Option String
  returncode : List String → Int
  timestamp : String

/-- Source deploy.py:92-96 (`check_mamba`). -/
def check_mamba (ctx : DeployCtx) (w : World) : (Except Nat Unit) × World :=
  let w := w.note ("MAMBA=" ++ ctx.mamba.toStr)
  if ¬ w.fs.isFile ctx.mamba then
    (.error 2, w.crit ("Required binary not found: mamba at " ++ ctx.mamba.toStr))
  else
    (.ok (), w)

/-- Join `a / b` for two paths: if `b` is absolute it replaces `a`
(`pathlib` anchor substitution). -/
def pathJoinPath (a b : PyPath) : PyPath :=
  if b.absolute then b else ⟨a.absolute, a.parts ++ b.parts⟩

/-- The fields of `MambaDeployer` that the orchestration uses
(deploy.py:173-205; the environment-variable map passed to commands does
not affect the properties proved here). -/
structure Deployer where
  dryRun : Bool
  offline : Bool
  keep : Bool
  envsDir : PyPath
  binDir : PyPath
  etcDir : PyPath
  metaDir : PyPath
  logDir : PyPath
deriving DecidableEq, Repr

/-- Source deploy.py:174-205 (`MambaDeployer.__init__`): derives the tier
subdirectories and creates the `logs/` directory. -/
def MambaDeployer.init (tierPath : PyPath) (dryRun offline keep : Bool)
    (w : World) : Deployer × World :=
  let d : Deployer :=
    { dryRun := dryRun, offline := offline, keep := keep,
      envsDir := tierPath.join "conda/envs",
      binDir := tierPath.join "bin",
      etcDir := tierPath.join "etc",
      metaDir := tierPath.join "meta",
      logDir := tierPath.join "logs" }
  (d, w.mkdir d.logDir true)

/-- Source deploy.py:219-257 (`MambaDeployer.deploy_env`). -/
def deploy_env (ctx : DeployCtx) (d : Deployer) (envYaml : PyPath) (w : World) :
    Int × World :=
  let yamlFullPath := if envYaml.absolute then envYaml else pathJoinPath ctx.defsDir envYaml
  if ¬ ctx.yamlOnDisk yamlFullPath then
    (1, w.err ("Environment definition file does not exist: " ++ yamlFullPath.toStr))
  else
    match ctx.yamlCheck yamlFullPath with
    | some e => (1, w.err ("Invalid environment definition: " ++ e))
    | none =>
      let envName := envYaml.stem
      if d.keep && w.fs.isDir (d.envsDir.join envName) then
        (0, w.note ("using existing environment: " ++ (d.envsDir.join envName).toStr))
      else
        let options := if d.offline then ["--offline"] else []
        let cmd := [ctx.mamba.toStr, "env", "create", "-y"] ++ options ++
          ["-n", envName, "-f", (pathJoinPath ctx.defsDir envYaml).toStr]
        let cmd := if d.dryRun then ["/usr/bin/env", "echo"] ++ cmd else cmd
        let logPath := d.logDir.join (ctx.timestamp ++ "-" ++ envYaml.stem ++ ".log")
        let w := w.note ("log_path=" ++ logPath.toStr)
        let w := w.writeFile logPath
        let w := w.runCmd cmd
        (ctx.returncode cmd, w)

/-- Source deploy.py:210-217 (`MambaDeployer.deploy_conda_environments`). -/
def deploy_conda_environments (ctx : DeployCtx) (d : Deployer) :
    List PyPath → World → World
  | [], w => w
  | y :: rest, w =>
    let w := w.note ("env_yaml=" ++ y.toStr)
    let p := deploy_env ctx d y w
    let w := if p.1 ≠ 0 then
        p.2.err ("Failed to deploy environment " ++ y.toStr ++ " exit code " ++
          toString p.1)
      else p.2
    deploy_conda_environments ctx d rest w

/-- Source deploy.py:265-277 (`MambaDeployer.copy_resource_dir`). -/
def copy_resource_dir (keep : Bool) (srcDir dstDir : PyPath) (w : World) : World :=
  let w :=
    if w.fs.pathExists dstDir then
      let w := if keep then w.warn ("destination dir already exists: " ++ dstDir.toStr) else w
      let w := w.note ("clearing " ++ dstDir.toStr)
      w.rmtree dstDir
    else w
  let w := w.note ("copying " ++ srcDir.toStr ++ " to " ++ dstDir.toStr)
  w.copytree srcDir dstDir true

/-- Source deploy.py:289-298 (`MambaDeployer.write_meta`). -/
def write_meta (ctx : DeployCtx) (d : Deployer) (destName : String)
    (subcommand : List String) (w : World) : Bool × World :=
  let command := ["git", "-C", ctx.codeRootDir.toStr] ++ subcommand
  let w := w.runCmd command
  let w := w.writeFile (d.metaDir.join destName)
  (ctx.returncode command == 0, w)

/-- Source deploy.py:279-287 (`MambaDeployer.store_git_info`). -/
def store_git_info (ctx : DeployCtx) (d : Deployer) (w : World) : World :=
  let w := w.mkdir d.metaDir false
  let w := (write_meta ctx d "commit" ["rev-parse", "HEAD"] w).2
  let w := (write_meta ctx d "tree_hash" ["rev-parse", "HEAD:"] w).2
  let p1 := write_meta ctx d "description" ["describe", "--dirty"] w
  if p1.1 then p1.2
  else
    let p2 := write_meta ctx d "description" ["describe", "--dirty", "--tags"] p1.2
    if p2.1 then p2.2
    else (write_meta ctx d "description" ["describe", "--dirty", "--all"] p2.2).2

/-- Run outcome: normal return, or `sys.exit` with a code. -/
inductive Outcome where
  | completed
  | exited (code : Nat)
deriving DecidableEq, Repr

/-- Source deploy.py:65-89: the part of `deploy_tier` after the disk-space
preflight (binary check, path setup, production guard, tier reset, deployer
construction, environment loop, resource copy and metadata capture). -/
def deploy_tier_main (ctx : DeployCtx) (target : PyPath) (tier : String)
    (dryRun offline : Bool) (mode : Option String) (w : World) : Outcome × World :=
  match check_mamba ctx w with
  | (.error code, w) => (.exited code, w)
  | (.ok _, w) =>
    match setup_tier_path target "production" w with
    | (.error code, w) => (.exited code, w)
    | (.ok prodPath, w) =>
      match setup_tier_path target tier w with
      | (.error code, w) => (.exited code, w)
      | (.ok tierPath, w) =>
        if tierPath = prodPath then
          (.exited 4, w.crit ("Cannot modify production tier: tier=" ++ tier ++
            " resolves to " ++ tierPath.toStr))
        else
          let keep := mode == some "keep"
          let w :=
            if w.fs.pathExists tierPath && ¬ keep &&
                (pyMatchResetName tier || mode == some "force") then
              (w.rmtree tierPath).mkdir tierPath false
            else w
          let p := MambaDeployer.init tierPath dryRun offline keep w
          let d := p.1
          let w := p.2
          let w := if d.keep then w.runCmd [ctx.mamba.toStr, "info"] else w
          let w := deploy_conda_environments ctx d ctx.worklist w
          if d.dryRun then (.completed, w)
          else
            let w := copy_resource_dir d.keep ctx.binSourceDir d.binDir w
            let w := copy_resource_dir d.keep ctx.etcSourceDir d.etcDir w
            (.completed, store_git_info ctx d w)

/-- Source deploy.py:34-89 (`deploy_tier`): the disk-space preflight
(deploy.py:49-63), then the main pipeline. -/
def deploy_tier (ctx : DeployCtx) (target : PyPath) (tier : String)
    (dryRun offline : Bool) (mode : Option String) (w : World) : Outcome × World :=
  let force := mode == some "force"
  match check_disk_space ctx.availableGb "deploy" (ctx.worklist.map ctx.envSize) force with
  | .error e => (.exited 4, w.crit e)
  | .ok res =>
    if res.2 ≠ "" then
      if strStarts res.2 "WARNING:" || strStarts res.2 "ERROR:" then
        deploy_tier_main ctx target tier dryRun offline mode (w.warn res.2)
      else
        deploy_tier_main ctx target tier dryRun offline mode (w.note res.2)
    else
      deploy_tier_main ctx target tier dryRun offline mode w

/-- Whether a filename matches the glob pattern `*.yaml` (a leading `*`
does not match a leading dot). -/
def globYamlName (name : String) : Bool :=
  ¬ strStarts name "." && strEnds name ".yaml"

/-- Source deploy.py:162-170 (`list_conda_environment_defs`), parameterised
over the real contents of the resources tree: `universalListing` is the set
of entry names in `DEFS_DIR/universal`, `platform` is `sys.platform`, and
`isFileReal` answers `Path.is_file` on the real filesystem. -/
def list_conda_environment_defs (defsDir : PyPath) (universalListing : List String)
    (platform : String) (isFileReal : PyPath → Bool) : List PyPath :=
  let univ := ((universalListing.filter globYamlName).insertionSort (· ≤ ·)).map
    (fun n => (defsDir.join "universal").join n)
  let wl := univ ++
    (if platform = "linux" then [defsDir.join "linux/linux.yaml"]
     else if platform = "darwin" then [defsDir.join "mac/mac.yaml"]
     else [])
  wl.filter isFileReal

/-! ## Module-level loading of deploy.py

Loading deploy.py binds six names out of the validators module
(deploy.py:17-24).  The names below transcribe the top-level bindings of
validators.py (its module namespace) and the requested names.  A requested
name absent from the module namespace makes the module load raise
an ImportError, so no function of deploy.py can run. -/

/-- Top-level bindings of `scripts/engine/validators.py`, in source order
(imports, classes and functions). -/
def validators_module_names : List String :=
  ["os", "Path", "shutil", "Any", "yaml",
   "ValidationError", "validate_env_yaml", "_validate_required_keys",
   "_validate_channels", "_validate_channel_name", "_validate_dependencies",
   "_validate_string_dependency", "_validate_dict_dependency",
   "BinaryNotFoundError", "check_binary_available", "check_required_binaries",
   "_format_missing_binaries_error", "check_bootstrap_binaries",
   "check_deploy_binaries", "DiskSpaceError", "get_available_space_gb",
   "estimate_env_size_gb", "check_disk_space", "SymlinkValidationError",
   "validate_symlink_target"]

/-- The names deploy.py:17-24 imports from the validators module. -/
def deploy_import_names : List String :=
  ["DiskSpaceError", "PathTraversalError", "ValidationError",
   "check_disk_space", "validate_env_yaml", "validate_safe_path"]

/-- Importing the deploy module: binds the requested names in order and
raises `ImportError` at the first one the validators module does not
define. -/
def deploy_module_import : Except String Unit :=
  match deploy_import_names.find? (fun n => ¬ validators_module_names.contains n) with
  | some n => .error ("ImportError: cannot import name " ++ n ++ " from engine.validators")
  | none => .ok ()

/-- Calling `setup_tier_path` from outside the module: the module must be
loaded first.  On ImportError the caller gets the error and no world is
produced (no step of the function body runs). -/
def call_setup_tier_path (target : PyPath) (tier : String) (w : World) :
    Except String ((Except Nat PyPath) × World) :=
  match deploy_module_import with
  | .error e => .error e
  | .ok _ => .ok (setup_tier_path target tier w)

/-- Calling `deploy_tier` from outside the module, behind the module
load. -/
def call_deploy_tier (ctx : DeployCtx) (target : PyPath) (tier : String)
    (dryRun offline : Bool) (mode : Option String) (w : World) :
    Except String (Outcome × World) :=
  match deploy_module_import with
  | .error e => .error e
  | .ok _ => .ok (deploy_tier ctx target tier dryRun offline mode w)

/-! ## Python call binding for `deploy_tier`

The repository's unit tests (tests/unit/test_deploy_tier.py) call
`deploy_tier` with an `env_yamls` keyword argument.  Binding a Python call
succeeds only if every keyword names a parameter of the callee. -/

/-- The parameter names of `deploy_tier` (deploy.py:34-43). -/
def deploy_tier_params : List String :=
  ["target", "tier", "dry_run", "offline", "mode", "run_function",
   "filesystem", "command_runner"]

/-- The keyword arguments of the call in
`test_deploy_tier_uses_provided_env_yamls_when_specified`
(tests/unit/test_deploy_tier.py). -/
def test_deploy_tier_call_kwargs : List String :=
  ["target", "tier", "dry_run", "offline", "filesystem", "command_runner",
   "env_yamls"]

/-- A Python call binds (no `TypeError`) only when every keyword argument
names a parameter. -/
def pyCallBinds (params kwargs : List String) : Bool :=
  kwargs.all params.contains

/-! ## Blue/green promotion (modelled from the spec)

The promote-staging script (`scripts/promote_staging`) is code of this
repository that is not under src/ — only its unit and integration tests
are.  The definitions below are modelled from spec section 4.4. -/

/-- The two physical colors. -/
inductive Color where
  | blue
  | green
deriving DecidableEq, Repr

def colorName : Color → String
  | .blue => "blue"
  | .green => "green"

/-- Modelled from the spec: `get_opposite_color` of the promote-staging
script (absent from src/).  Spec section 4.4: a fixed two-entry mapping
blue to green, green to blue; a lookup error for any other input is the
`Option.none` of `parseColor` below. -/
def get_opposite_color : Color → Color
  | .blue => .green
  | .green => .blue

/-- The staging and production symlinks, each as the name its link stores
(`none` when the link is absent). -/
structure BlueGreenState where
  staging : Option String
  production : Option String
deriving DecidableEq, Repr

/-- One symlink write, in the order performed. -/
inductive PromoteWrite where
  | setProduction (c : Color)
  | setStaging (c : Color)
deriving DecidableEq, Repr

/-- Modelled from the spec: `validate_and_get_color` of the promote-staging
script (absent from src/).  Spec section 4.4: reads one symlink's immediate
target name; fails if the path is not a symlink or the target name is not
exactly blue or green (a target named staging is rejected). -/
def validate_and_get_color (linkTarget : Option String) : Except String Color :=
  match linkTarget with
  | none => .error "not a symlink"
  | some t =>
    if t = "blue" then .ok .blue
    else if t = "green" then .ok .green
    else .error ("invalid color: " ++ t)

/-- Modelled from the spec: `promote()` of the promote-staging script
(absent from src/).  Spec section 4.4: read the staging color `C`; if no
production symlink exists create one pointing to `C`, else require the
production color to differ from `C` (equal colors is the fatal same-color
error) and repoint production to `C`; then repoint staging to the opposite
color — production first, staging second. -/
def promote (st : BlueGreenState) :
    Except String (BlueGreenState × List PromoteWrite) := do
  let c ← validate_and_get_color st.staging
  match st.production with
  | none =>
    let o := get_opposite_color c
    .ok (⟨some (colorName o), some (colorName c)⟩,
      [.setProduction c, .setStaging o])
  | some p => do
    let pc ← validate_and_get_color (some p)
    if pc = c then
      .error "same color"
    else
      let o := get_opposite_color c
      .ok (⟨some (colorName o), some (colorName c)⟩,
        [.setProduction c, .setStaging o])

/-- A valid promotion pre-state: staging names a color, and production is
absent or names the other color. -/
def validPreState (st : BlueGreenState) : Prop :=
  (st.staging = some "blue" ∨ st.staging = some "green") ∧
  (st.production = none ∨
    ((st.production = some "blue" ∨ st.production = some "green") ∧
      st.production ≠ st.staging))

/-- An existing destination directory for the C6 counterexample. -/
def c6Dst : PyPath := ⟨true, ["tier", "bin"]⟩

/-- A source tree path for the C6 counterexample. -/
def c6Src : PyPath := ⟨true, ["resources", "bin"]⟩

/-- A world in which the destination directory already exists. -/
def c6World : World := ⟨⟨[c6Dst], []⟩, []⟩

/-- The early-acceptance conditions of `_validate_channel_name`: known
channel name, URL scheme, or a slash form with at least two non-blank
segments.  A channel meeting any of these is accepted before the
whitespace check runs. -/
def channelEarlyAccepted (c : String) : Bool :=
  valid_channels.contains c ||
  (strStarts c "http://" || strStarts c "https://" || strStarts c "file://") ||
  (strHasChar c '/' &&
    (let ps := pySplitSlash c
     decide (ps.length ≥ 2) && ps.all pyStripTruthy))

/-- Oracles for the C9 witness. -/
def c9Ctx : DeployCtx :=
  { mamba := ⟨true, ["opt", "bin", "mamba"]⟩,
    codeRootDir := ⟨true, ["code"]⟩,
    defsDir := ⟨true, ["code", "resources", "defs"]⟩,
    binSourceDir := ⟨true, ["code", "resources", "bin"]⟩,
    etcSourceDir := ⟨true, ["code", "resources", "etc"]⟩,
    availableGb := 100,
    worklist := [],
    envSize := fun _ => 1,
    yamlOnDisk := fun _ => true,
    yamlCheck := fun _ => none,
    returncode := fun _ => 0,
    timestamp := "20260101-000000" }

/-- A deployer in keep mode for the C9 witness. -/
def c9Deployer : Deployer :=
  { dryRun := false, offline := false, keep := true,
    envsDir := ⟨true, ["tier", "conda", "envs"]⟩,
    binDir := ⟨true, ["tier", "bin"]⟩,
    etcDir := ⟨true, ["tier", "etc"]⟩,
    metaDir := ⟨true, ["tier", "meta"]⟩,
    logDir := ⟨true, ["tier", "logs"]⟩ }

/-- A world in which the environment directory `conda` already exists. -/
def c9World : World := ⟨⟨[⟨true, ["tier", "conda", "envs", "conda"]⟩], []⟩, []⟩

/-- The definition file for the C9 witness. -/
def c9Env : PyPath := ⟨false, ["universal", "conda.yaml"]⟩

/-- The target for the C3 witness. -/
def c3Target : PyPath := ⟨true, ["t"]⟩

/-- A grammatical tier name that escapes the target via `..` components. -/
def c3Tier : String := "dev/../../../x"

/-- A world in which the target directory exists. -/
def c3World : World := ⟨⟨[c3Target], []⟩, []⟩

/-- The events `setup_tier_path` may append: log lines and a
parents-creating `mkdir` of the resolved tier path. -/
def setupEventOk (tp : PyPath) (e : FSEvent) : Bool :=
  match e with
  | .logInfo _ => true
  | .logCritical _ => true
  | .mkdirEv q parents => q == tp && parents
  | _ => false

/-- The events the per-environment deployment may append: log lines, a log
file write, and a package-manager invocation. -/
def envEventOk (e : FSEvent) : Bool :=
  match e with
  | .logInfo _ => true
  | .logErr _ => true
  | .writeFileEv _ => true
  | .runEv _ => true
  | _ => false

/-- The events a dry-run `deploy_tier_main` may append: benign events, the
path-setup `mkdir`s of the production and tier paths, the tier reset, and
the `logs/` directory creation. -/
def dryRunEventOk (pp tp : PyPath) (e : FSEvent) : Bool :=
  match e with
  | .mkdirEv q parents => (q == pp && parents) || q == tp ||
      (q == tp.join "logs" && parents)
  | .rmtreeEv q => q == tp
  | .copytreeEv _ _ _ => false
  | .writeFileEv _ => true
  | .runEv _ => true
  | .logWarn _ => true
  | .logInfo _ => true
  | .logErr _ => true
  | .logCritical _ => true

/-- Events that are plain log lines. -/
def logEventOk (e : FSEvent) : Bool :=
  match e with
  | .logInfo _ => true
  | .logWarn _ => true
  | .logErr _ => true
  | .logCritical _ => true
  | _ => false

/-- The oracle context for concrete deployment runs: ample disk space, an
empty auto-discovered worklist, and a mamba binary at a fixed path. -/
def sampleCtx : DeployCtx :=
  { mamba := ⟨true, ["opt", "bin", "mamba"]⟩,
    codeRootDir := ⟨true, ["code"]⟩,
    defsDir := ⟨true, ["code", "resources", "defs"]⟩,
    binSourceDir := ⟨true, ["code", "resources", "bin"]⟩,
    etcSourceDir := ⟨true, ["code", "resources", "etc"]⟩,
    availableGb := 100,
    worklist := [],
    envSize := fun _ => 1,
    yamlOnDisk := fun _ => true,
    yamlCheck := fun _ => none,
    returncode := fun _ => 0,
    timestamp := "20260101-000000" }

/-- A concrete target root. -/
def sampleTarget : PyPath := ⟨true, ["t"]⟩

/-- A world in which the target root exists, the mamba binary exists, and
no infrastructure directory exists yet. -/
def sampleWorld : World :=
  ⟨⟨[sampleTarget], [⟨true, ["opt", "bin", "mamba"]⟩]⟩, []⟩

/-! ## Theorems -/

theorem strContains_of_append (x y : String) (sub : String) :
    strContains (x ++ sub ++ y) sub := by
  refine ⟨x.data, y.data, ?_⟩
  simp [String.data_append]


/-- C1: for every argument combination, calling `setup_tier_path` (and
therefore `deploy_tier`, which invokes it) fails with a name-resolution
error before performing any of its specified steps, because deploy.py
requests `validate_safe_path` and `PathTraversalError` from the validators
module and the validators module defines neither; no call of these
operations can return a path or mutate the filesystem (the wrappers return
the import error and no world). -/
theorem deploy_module_import_always_fails (ctx : DeployCtx) (target : PyPath)
    (tier : String) (dryRun offline : Bool) (mode : Option String) (w : World) :
    call_setup_tier_path target tier w =
      .error "ImportError: cannot import name PathTraversalError from engine.validators" ∧
    call_deploy_tier ctx target tier dryRun offline mode w =
      .error "ImportError: cannot import name PathTraversalError from engine.validators" ∧
    validators_module_names.contains "validate_safe_path" = false ∧
    validators_module_names.contains "PathTraversalError" = false :=
  ⟨rfl, rfl, rfl, rfl⟩

/-- C10: `deploy_tier` has no parameter through which a caller could
supply an environment-definition list, while the repository's own unit
tests call it with the keyword `env_yamls`; such a call does not bind
(a `TypeError`), so a caller-supplied list never takes precedence. -/
theorem deploy_tier_env_yamls_param_missing :
    pyCallBinds deploy_tier_params test_deploy_tier_call_kwargs = false ∧
    deploy_tier_params.contains "env_yamls" = false ∧
    test_deploy_tier_call_kwargs.contains "env_yamls" = true := by
  decide


/-- C7: promotion preserves the blue/green invariant — for every valid
pre-state, `promote` succeeds, repoints production (first) to the staging
color and staging (second) to the opposite color, and the post-state has
`staging_color ≠ production_color`. -/
theorem promote_preserves_invariant (st : BlueGreenState)
    (h : validPreState st) :
    ∃ c : Color,
      promote st = .ok
        (⟨some (colorName (get_opposite_color c)), some (colorName c)⟩,
         [.setProduction c, .setStaging (get_opposite_color c)]) ∧
      colorName (get_opposite_color c) ≠ colorName c := by
  obtain ⟨hs, hp⟩ := h
  obtain ⟨stg, prod⟩ := st
  simp only at hs hp
  rcases hs with hs | hs <;> subst hs <;>
    rcases hp with hp | ⟨hpc, hpne⟩
  · subst hp; exact ⟨.blue, rfl, by decide⟩
  · rcases hpc with hpc | hpc <;> subst hpc
    · exact absurd rfl hpne
    · exact ⟨.blue, rfl, by decide⟩
  · subst hp; exact ⟨.green, rfl, by decide⟩
  · rcases hpc with hpc | hpc <;> subst hpc
    · exact ⟨.green, rfl, by decide⟩
    · exact absurd rfl hpne

/-- Witness for C7 at the concrete pre-state staging→blue,
production→green. -/
theorem promote_preserves_invariant_witness :
    validPreState ⟨some "blue", some "green"⟩ ∧
    ∃ c : Color,
      promote ⟨some "blue", some "green"⟩ = .ok
        (⟨some (colorName (get_opposite_color c)), some (colorName c)⟩,
         [.setProduction c, .setStaging (get_opposite_color c)]) ∧
      colorName (get_opposite_color c) ≠ colorName c :=
  ⟨by constructor <;> simp [validPreState],
   promote_preserves_invariant ⟨some "blue", some "green"⟩
     (by constructor <;> simp [validPreState])⟩

/-- C6 counterexample: with the destination already existing and mode not
"keep", `copy_resource_dir` logs no warning — the claim that a warning is
logged if and only if the mode is not "keep" fails (the source warns when
`keep` is true, deploy.py:267-268). -/
theorem copy_resource_dir_no_warn_when_not_keep :
    c6World.fs.pathExists c6Dst = true ∧
    ((copy_resource_dir false c6Src c6Dst c6World).events.filter FSEvent.isWarn = []) := by
  decide

/-- C6 amended: when the destination exists, `copy_resource_dir` logs a
warning if and only if the mode is "keep"; in every mode it then removes
the destination entirely and recreates it from the source tree with
`copytree(symlinks=True)` (a full mirror, never a merge), removal strictly
before the copy. -/
theorem copy_resource_dir_spec (keep : Bool) (srcDir dstDir : PyPath) (w : World) :
    (copy_resource_dir keep srcDir dstDir w).events =
      w.events ++
        (if w.fs.pathExists dstDir then
          (if keep then
            [.logWarn ("destination dir already exists: " ++ dstDir.toStr)] else []) ++
          [.logInfo ("clearing " ++ dstDir.toStr), .rmtreeEv dstDir]
         else []) ++
        [.logInfo ("copying " ++ srcDir.toStr ++ " to " ++ dstDir.toStr),
         .copytreeEv srcDir dstDir true] ∧
    (((copy_resource_dir keep srcDir dstDir w).events.drop w.events.length).any
        FSEvent.isWarn = true ↔
      keep = true ∧ w.fs.pathExists dstDir = true) := by
  unfold copy_resource_dir
  cases hex : w.fs.pathExists dstDir <;> cases keep <;>
    simp [World.warn, World.note, World.rmtree, World.copytree,
      FSEvent.isWarn, List.append_assoc, List.drop_left]


/-- A channel string that is not early-accepted and contains a space is
rejected by the per-channel check, at every index. -/
theorem checkChannelAt_err_of_space (i : Nat) (path c : String)
    (hspace : strHasChar c ' ' = true)
    (hnot : channelEarlyAccepted c = false) :
    ∃ e, checkChannelAt i path (.str c) = .error e := by
  simp only [checkChannelAt]
  by_cases hst : pyStripTruthy c = true
  · rw [if_neg (by simp [hst])]
    have hsplit := hnot
    simp only [channelEarlyAccepted, Bool.or_eq_false_iff] at hsplit
    obtain ⟨⟨hA, hB⟩, hC⟩ := hsplit
    have h4 : ([' ', '\n', '\t', '\r'].any (strHasChar c)) = true := by
      refine List.any_eq_true.mpr ⟨' ', by simp, hspace⟩
    unfold _validate_channel_name
    rw [if_neg (by rw [hA]; simp), if_neg (by simp [hB]), if_neg (by rw [hC]; simp),
      if_pos h4]
    exact ⟨_, rfl⟩
  · rw [if_pos (by simp [hst])]
    exact ⟨_, rfl⟩

/-- If some element of the channels list fails the per-channel check at
every index, the whole indexed loop fails. -/
theorem checkChannelsFrom_err (path : String) (cs : List Yaml) (y : Yaml)
    (hmem : y ∈ cs)
    (hbad : ∀ j, ∃ e, checkChannelAt j path y = .error e) :
    ∀ i, ∃ e, checkChannelsFrom path i cs = .error e := by
  induction cs with
  | nil => exact absurd hmem (List.not_mem_nil y)
  | cons hd tl ih =>
    intro i
    rcases List.mem_cons.mp hmem with hh | ht
    · subst hh
      obtain ⟨e, he⟩ := hbad i
      refine ⟨e, ?_⟩
      simp only [checkChannelsFrom]
      rw [he]
      rfl
    · cases hhd : checkChannelAt i path hd with
      | error e =>
        refine ⟨e, ?_⟩
        simp only [checkChannelsFrom]
        rw [hhd]
        rfl
      | ok u =>
        obtain ⟨e, he⟩ := ih ht (i + 1)
        refine ⟨e, ?_⟩
        simp only [checkChannelsFrom]
        rw [hhd]
        exact he

/-- C5 amended: `validate_env_yaml` fails on a document whose channels
list contains a string with an embedded space, provided that string is not
early-accepted (known channel name, URL scheme, or slash form with
non-blank segments); early-accepted channel strings pass despite embedded
spaces. -/
theorem validate_env_yaml_rejects_space_channel
    (kvs : List (String × Yaml)) (cs : List Yaml) (c : String) (path : String)
    (hch : Yaml.lookup kvs "channels" = some (.list cs))
    (hmem : Yaml.str c ∈ cs)
    (hspace : strHasChar c ' ' = true)
    (hnot : channelEarlyAccepted c = false) :
    ∃ e, validate_env_yaml (.dict kvs) path = .error e := by
  have hne : cs ≠ [] := by
    intro hx; rw [hx] at hmem; exact absurd hmem (List.not_mem_nil _)
  have hcs : _validate_channels ((Yaml.lookup kvs "channels").getD .null) path =
      checkChannelsFrom path 0 cs := by
    rw [hch]
    simp [_validate_channels, List.isEmpty_iff, hne]
  obtain ⟨e, he⟩ := checkChannelsFrom_err path cs (.str c) hmem
    (fun j => checkChannelAt_err_of_space j path c hspace hnot) 0
  unfold validate_env_yaml
  cases hreq : _validate_required_keys kvs path with
  | error e2 => exact ⟨e2, by simp only [hreq]; rfl⟩
  | ok u => exact ⟨e, by simp only [hreq, hcs, he]; rfl⟩

/-- Witness for the amended C5 at a concrete document whose only channel
is the space-containing, not-early-accepted string "foo bar". -/
theorem validate_env_yaml_rejects_space_channel_witness :
    strHasChar "foo bar" ' ' = true ∧
    channelEarlyAccepted "foo bar" = false ∧
    ∃ e, validate_env_yaml
      (.dict [("channels", .list [.str "foo bar"]),
              ("dependencies", .list [.str "python"])]) "conda.yaml" = .error e :=
  ⟨by decide, by decide,
   validate_env_yaml_rejects_space_channel
     [("channels", .list [.str "foo bar"]), ("dependencies", .list [.str "python"])]
     [.str "foo bar"] "foo bar" "conda.yaml" rfl (List.mem_singleton.mpr rfl)
     (by decide) (by decide)⟩

/-- C5 counterexample: a channels list containing the URL-scheme channel
"https://x y" — an embedded space — nevertheless validates, so the claim
that every embedded-space channel string is rejected (including URL-scheme
forms) fails. -/
theorem validate_env_yaml_accepts_space_url_channel :
    strHasChar "https://x y" ' ' = true ∧
    validate_env_yaml
      (.dict [("channels", .list [.str "https://x y"]),
              ("dependencies", .list [.str "python"])]) "env.yaml" = .ok true :=
  ⟨by decide, rfl⟩

theorem strContains_mono_left (a b sub : String) (h : strContains b sub) :
    strContains (a ++ b) sub := by
  obtain ⟨pre, post, hb⟩ := h
  exact ⟨a.data ++ pre, post, by simp [String.data_append, hb, List.append_assoc]⟩

theorem strContains_mono_right (a b sub : String) (h : strContains a sub) :
    strContains (a ++ b) sub := by
  obtain ⟨pre, post, ha⟩ := h
  exact ⟨pre, post ++ b.data, by simp [String.data_append, ha, List.append_assoc]⟩

theorem strContains_self (s : String) : strContains s s :=
  ⟨[], [], by simp⟩

/-- C4: for `operation = "deploy"` (minimum 15 GB), whenever available
space is below the minimum, `check_disk_space` with `force = false` raises
an insufficient-space error whose message includes the available figure,
the minimum figure, and the remediation hint; the identical call with
`force = true` returns success with a message containing "WARNING"; and
with available space at or above the minimum it never raises. -/
theorem check_disk_space_thresholds (availableGb : ℚ) (envSizes : List ℚ) :
    (availableGb < 15 →
      (∃ msg, check_disk_space availableGb "deploy" envSizes false = .error msg ∧
        strContains msg ("Available: " ++ fmtFixed1 availableGb ++ "GB") ∧
        strContains msg ("Required: " ++ toString (15 : ℚ).num ++ "GB minimum") ∧
        strContains msg "Use --force to override.") ∧
      (∃ msg, check_disk_space availableGb "deploy" envSizes true = .ok (true, msg) ∧
        strContains msg "WARNING")) ∧
    (15 ≤ availableGb →
      ∀ force, ∃ r, check_disk_space availableGb "deploy" envSizes force = .ok r) := by
  have hth : diskThresholds "deploy" = (15, 30) := by simp [diskThresholds]
  constructor
  · intro hlt
    constructor
    · refine ⟨"Insufficient disk space for " ++ "deploy" ++ "\n" ++
        "Available: " ++ fmtFixed1 availableGb ++ "GB" ++ "\n" ++
        "Required: " ++ toString (15 : ℚ).num ++ "GB minimum" ++ "\n" ++
        pyCapitalize "deploy" ++ " requires at least " ++ toString (15 : ℚ).num ++
        "GB of free space." ++ "\n" ++ "Use --force to override.", ?_, ?_, ?_, ?_⟩
      · simp only [check_disk_space, hth]
        rw [if_pos hlt, if_neg (by simp)]
      · refine ⟨("Insufficient disk space for " ++ "deploy" ++ "\n").data,
          ("\n" ++ "Required: " ++ toString (15 : ℚ).num ++ "GB minimum" ++ "\n" ++
            pyCapitalize "deploy" ++ " requires at least " ++ toString (15 : ℚ).num ++
            "GB of free space." ++ "\n" ++ "Use --force to override.").data, ?_⟩
        simp [String.data_append, List.append_assoc]
      · refine ⟨("Insufficient disk space for " ++ "deploy" ++ "\n" ++
          "Available: " ++ fmtFixed1 availableGb ++ "GB" ++ "\n").data,
          ("\n" ++ pyCapitalize "deploy" ++ " requires at least " ++
            toString (15 : ℚ).num ++ "GB of free space." ++ "\n" ++
            "Use --force to override.").data, ?_⟩
        simp [String.data_append, List.append_assoc]
      · exact strContains_mono_left _ _ _ (strContains_self _)
    · refine ⟨"Insufficient disk space for " ++ "deploy" ++ "\n" ++
        "Available: " ++ fmtFixed1 availableGb ++ "GB" ++ "\n" ++
        "Required: " ++ toString (15 : ℚ).num ++ "GB minimum" ++ "\n" ++
        "WARNING" ++ ": Proceeding anyway due to --force flag", ?_, ?_⟩
      · simp only [check_disk_space, hth]
        rw [if_pos hlt, if_pos (by simp)]
      · apply strContains_mono_right
        apply strContains_mono_left
        exact strContains_self _
  · intro hge force
    simp only [check_disk_space, hth]
    rw [if_neg (by exact not_lt.mpr hge)]
    split
    · exact ⟨_, rfl⟩
    · split
      · exact ⟨_, rfl⟩
      · exact ⟨_, rfl⟩

/-- Witness for C4 at available space 10 GB (below the 15 GB deploy
minimum) and 20 GB (above it), with no environment estimates. -/
theorem check_disk_space_thresholds_witness :
    (((10 : ℚ) < 15) ∧
      ((∃ msg, check_disk_space 10 "deploy" [] false = .error msg ∧
        strContains msg ("Available: " ++ fmtFixed1 10 ++ "GB") ∧
        strContains msg ("Required: " ++ toString (15 : ℚ).num ++ "GB minimum") ∧
        strContains msg "Use --force to override.") ∧
      (∃ msg, check_disk_space 10 "deploy" [] true = .ok (true, msg) ∧
        strContains msg "WARNING"))) ∧
    (((15 : ℚ) ≤ 20) ∧
      ∀ force, ∃ r, check_disk_space 20 "deploy" [] force = .ok r) :=
  ⟨⟨by norm_num, (check_disk_space_thresholds 10 []).1 (by norm_num)⟩,
   ⟨by norm_num, (check_disk_space_thresholds 20 []).2 (by norm_num)⟩⟩

/-- C9: in "keep" mode, when the environment directory already exists
under the tier's envs directory (and the definition file exists and
validates), `deploy_env` returns 0 without invoking the package manager,
leaving the filesystem state unchanged and emitting only a log note. -/
theorem deploy_env_keep_skips_existing (ctx : DeployCtx) (d : Deployer)
    (envYaml : PyPath) (w : World)
    (hkeep : d.keep = true)
    (hondisk : ctx.yamlOnDisk
      (if envYaml.absolute then envYaml else pathJoinPath ctx.defsDir envYaml) = true)
    (hvalid : ctx.yamlCheck
      (if envYaml.absolute then envYaml else pathJoinPath ctx.defsDir envYaml) = none)
    (hdir : w.fs.isDir (d.envsDir.join envYaml.stem) = true) :
    (deploy_env ctx d envYaml w).1 = 0 ∧
    (deploy_env ctx d envYaml w).2.fs = w.fs ∧
    (deploy_env ctx d envYaml w).2.events.drop w.events.length =
      [.logInfo ("using existing environment: " ++ (d.envsDir.join envYaml.stem).toStr)] := by
  have hrun : deploy_env ctx d envYaml w =
      (0, w.note ("using existing environment: " ++ (d.envsDir.join envYaml.stem).toStr)) := by
    simp [deploy_env, hondisk, hvalid, hkeep, hdir]
  rw [hrun]
  refine ⟨rfl, rfl, ?_⟩
  simp [World.note, List.drop_left]

/-- Witness for C9 at a concrete keep-mode deployer and pre-existing
environment directory. -/
theorem deploy_env_keep_skips_existing_witness :
    c9Deployer.keep = true ∧
    c9World.fs.isDir (c9Deployer.envsDir.join c9Env.stem) = true ∧
    (deploy_env c9Ctx c9Deployer c9Env c9World).1 = 0 ∧
    (deploy_env c9Ctx c9Deployer c9Env c9World).2.fs = c9World.fs ∧
    (deploy_env c9Ctx c9Deployer c9Env c9World).2.events.drop c9World.events.length =
      [.logInfo ("using existing environment: " ++
        (c9Deployer.envsDir.join c9Env.stem).toStr)] := by
  refine ⟨rfl, by decide, ?_⟩
  exact deploy_env_keep_skips_existing c9Ctx c9Deployer c9Env c9World rfl rfl rfl
    (by decide)

/-- C3: for an absolute target directory and a grammatical tier name, when
the resolved tier path is not lexically contained within the target,
`setup_tier_path` fails with the path-traversal error (exit code 3, after
logging the traversal message) and creates no directory: the filesystem is
unchanged and the appended events are log lines only. -/
theorem setup_tier_path_traversal (target : PyPath) (tier : String) (w : World)
    (habs : target.absolute = true)
    (hgram : pyMatchTierName tier = true)
    (hdir : w.fs.isDir target = true)
    (hesc : initSeg (target.resolve).parts (validate_tier_path target tier).parts = false) :
    (setup_tier_path target tier w).1 = .error 3 ∧
    (setup_tier_path target tier w).2.fs = w.fs ∧
    (setup_tier_path target tier w).2.events.drop w.events.length =
      [.logInfo ("target=" ++ target.toStr), .logInfo ("tier=" ++ tier),
       .logCritical ("Path traversal detected: " ++
         (validate_tier_path target tier).toStr)] := by
  have hsafe : validate_safe_path (validate_tier_path target tier) target = false := by
    simp [validate_safe_path, hesc]
  have hrun : setup_tier_path target tier w =
      (.error 3, ⟨w.fs, w.events ++
        [.logInfo ("target=" ++ target.toStr), .logInfo ("tier=" ++ tier),
         .logCritical ("Path traversal detected: " ++
           (validate_tier_path target tier).toStr)]⟩) := by
    simp [setup_tier_path, World.note, World.crit, habs, hgram, hdir, hsafe]
  rw [hrun]
  exact ⟨rfl, rfl, by simp [List.drop_left]⟩

/-- Witness for C3 at a concrete escaping tier name. -/
theorem setup_tier_path_traversal_witness :
    c3Target.absolute = true ∧
    pyMatchTierName c3Tier = true ∧
    initSeg (c3Target.resolve).parts (validate_tier_path c3Target c3Tier).parts = false ∧
    (setup_tier_path c3Target c3Tier c3World).1 = .error 3 ∧
    (setup_tier_path c3Target c3Tier c3World).2.fs = c3World.fs ∧
    (setup_tier_path c3Target c3Tier c3World).2.events.drop c3World.events.length =
      [.logInfo ("target=" ++ c3Target.toStr), .logInfo ("tier=" ++ c3Tier),
       .logCritical ("Path traversal detected: " ++
         (validate_tier_path c3Target c3Tier).toStr)] := by
  refine ⟨rfl, by decide, by decide, ?_⟩
  exact setup_tier_path_traversal c3Target c3Tier c3World rfl (by decide) (by decide)
    (by decide)

theorem setup_tier_path_events (target : PyPath) (tier : String) (w : World) :
    ∃ evs, (setup_tier_path target tier w).2.events = w.events ++ evs ∧
      evs.all (setupEventOk (validate_tier_path target tier)) = true := by
  simp only [setup_tier_path]
  split
  · exact ⟨[.logInfo ("target=" ++ target.toStr), .logInfo ("tier=" ++ tier),
      .logCritical ("Target directory must be an absolute path: " ++ target.toStr)],
      by simp [World.note, World.crit], by simp [setupEventOk]⟩
  · split
    · exact ⟨[.logInfo ("target=" ++ target.toStr), .logInfo ("tier=" ++ tier),
        .logCritical ("Invalid tier name: " ++ tier ++
          ". Must match pattern: blue|green|staging|production|dev.*|test.*")],
        by simp [World.note, World.crit], by simp [setupEventOk]⟩
    · split
      · exact ⟨[.logInfo ("target=" ++ target.toStr), .logInfo ("tier=" ++ tier),
          .logCritical ("Target directory does not exist or is not a directory: " ++
            target.toStr)],
          by simp [World.note, World.crit], by simp [setupEventOk]⟩
      · split
        · exact ⟨[.logInfo ("target=" ++ target.toStr), .logInfo ("tier=" ++ tier),
            .logCritical ("Path traversal detected: " ++
              (validate_tier_path target tier).toStr)],
            by simp [World.note, World.crit], by simp [setupEventOk]⟩
        · split
          · exact ⟨[.logInfo ("target=" ++ target.toStr), .logInfo ("tier=" ++ tier),
              .logInfo ("tier_path=" ++ (validate_tier_path target tier).toStr),
              .mkdirEv (validate_tier_path target tier) true],
              by simp [World.note, World.mkdir], by simp [setupEventOk]⟩
          · exact ⟨[.logInfo ("target=" ++ target.toStr), .logInfo ("tier=" ++ tier),
              .logInfo ("tier_path=" ++ (validate_tier_path target tier).toStr)],
              by simp [World.note], by simp [setupEventOk]⟩

theorem setup_tier_path_ok (target : PyPath) (tier : String) (w : World)
    (tp : PyPath) (h : (setup_tier_path target tier w).1 = .ok tp) :
    tp = validate_tier_path target tier ∧
    validate_safe_path (validate_tier_path target tier) target = true ∧
    (setup_tier_path target tier w).2.fs.isDir tp = true ∧
    ∀ q, w.fs.isDir q = true → (setup_tier_path target tier w).2.fs.isDir q = true := by
  cases habs : target.absolute with
  | false => simp [setup_tier_path, habs] at h
  | true =>
  cases hgram : pyMatchTierName tier with
  | false => simp [setup_tier_path, habs, hgram, World.note] at h
  | true =>
  cases hdirt : w.fs.isDir target with
  | false => simp [setup_tier_path, habs, hgram, hdirt, World.note] at h
  | true =>
  cases hsafe : validate_safe_path (validate_tier_path target tier) target with
  | false => simp [setup_tier_path, habs, hgram, hdirt, hsafe, World.note] at h
  | true =>
  cases hex : w.fs.isDir (validate_tier_path target tier) with
  | true =>
    have hres : setup_tier_path target tier w =
        (.ok (validate_tier_path target tier),
         ⟨w.fs, w.events ++ [.logInfo ("target=" ++ target.toStr),
            .logInfo ("tier=" ++ tier),
            .logInfo ("tier_path=" ++ (validate_tier_path target tier).toStr)]⟩) := by
      simp [setup_tier_path, habs, hgram, hdirt, hsafe, hex, World.note]
    rw [hres] at h
    simp only at h
    cases h
    rw [hres]
    exact ⟨rfl, rfl, hex, fun q hq => hq⟩
  | false =>
    have hres : setup_tier_path target tier w =
        (.ok (validate_tier_path target tier),
         ⟨w.fs.mkdirSet (validate_tier_path target tier) true,
          w.events ++ [.logInfo ("target=" ++ target.toStr),
            .logInfo ("tier=" ++ tier),
            .logInfo ("tier_path=" ++ (validate_tier_path target tier).toStr),
            .mkdirEv (validate_tier_path target tier) true]⟩) := by
      simp [setup_tier_path, habs, hgram, hdirt, hsafe, hex, World.note, World.mkdir]
    rw [hres] at h
    simp only at h
    cases h
    rw [hres]
    refine ⟨rfl, rfl, ?_, ?_⟩
    · simp [FS.mkdirSet, FS.isDir]
    · intro q hq
      have hq' : q ∈ w.fs.dirs := by simpa [FS.isDir] using hq
      simp only [FS.mkdirSet, FS.isDir]
      simp only [List.contains_eq_any_beq, List.any_eq_true, beq_iff_eq]
      exact ⟨q, List.mem_cons_of_mem _ (List.mem_append_right _ hq'), rfl⟩


theorem allImp {p q : FSEvent → Bool} (l : List FSEvent)
    (h : ∀ e, p e = true → q e = true) (hl : l.all p = true) : l.all q = true := by
  simp only [List.all_eq_true] at hl ⊢
  exact fun e he => h e (hl e he)

theorem logOk_dry (pp tp : PyPath) (e : FSEvent) (h : logEventOk e = true) :
    dryRunEventOk pp tp e = true := by
  cases e <;> simp_all [logEventOk, dryRunEventOk]

theorem setupOk_dry_pp (pp tp : PyPath) (e : FSEvent) (h : setupEventOk pp e = true) :
    dryRunEventOk pp tp e = true := by
  cases e <;> simp_all [setupEventOk, dryRunEventOk]

theorem setupOk_dry_tp (pp tp : PyPath) (e : FSEvent) (h : setupEventOk tp e = true) :
    dryRunEventOk pp tp e = true := by
  cases e <;> simp_all [setupEventOk, dryRunEventOk]

theorem envOk_dry (pp tp : PyPath) (e : FSEvent) (h : envEventOk e = true) :
    dryRunEventOk pp tp e = true := by
  cases e <;> simp_all [envEventOk, dryRunEventOk]

theorem check_mamba_events_core (ctx : DeployCtx) (w : World) :
    (check_mamba ctx w).2.events.take w.events.length = w.events ∧
    ((check_mamba ctx w).2.events.drop w.events.length).all logEventOk = true ∧
    (check_mamba ctx w).2.fs = w.fs := by
  cases hm : w.fs.isFile ctx.mamba <;>
    simp [check_mamba, World.note, World.crit, hm, logEventOk,
      List.append_assoc, List.take_left, List.drop_left]

theorem check_mamba_events (ctx : DeployCtx) (w : World) :
    ∃ evs, (check_mamba ctx w).2.events = w.events ++ evs ∧
      evs.all logEventOk = true ∧
      (check_mamba ctx w).2.fs = w.fs := by
  obtain ⟨h1, h2, h3⟩ := check_mamba_events_core ctx w
  refine ⟨(check_mamba ctx w).2.events.drop w.events.length, ?_, h2, h3⟩
  conv_lhs => rw [← List.take_append_drop w.events.length (check_mamba ctx w).2.events]
  rw [h1]

theorem deploy_env_events_core (ctx : DeployCtx) (d : Deployer) (y : PyPath)
    (w : World) :
    (deploy_env ctx d y w).2.events.take w.events.length = w.events ∧
    ((deploy_env ctx d y w).2.events.drop w.events.length).all envEventOk = true ∧
    (deploy_env ctx d y w).2.fs.dirs = w.fs.dirs := by
  cases hab : y.absolute with
  | true =>
    cases hod : ctx.yamlOnDisk y with
    | false =>
      simp [deploy_env, hab, hod, World.err, envEventOk,
        List.append_assoc, List.take_left, List.drop_left]
    | true =>
      cases hvc : ctx.yamlCheck y with
      | some e =>
        simp [deploy_env, hab, hod, hvc, World.err, envEventOk,
          List.append_assoc, List.take_left, List.drop_left]
      | none =>
        by_cases hkd : (d.keep && w.fs.isDir (d.envsDir.join y.stem)) = true <;>
          simp [deploy_env, hab, hod, hvc, hkd, World.note, World.writeFile,
            World.runCmd, FS.writeFileSet, envEventOk,
            List.append_assoc, List.take_left, List.drop_left]
  | false =>
    cases hod : ctx.yamlOnDisk (pathJoinPath ctx.defsDir y) with
    | false =>
      simp [deploy_env, hab, hod, World.err, envEventOk,
        List.append_assoc, List.take_left, List.drop_left]
    | true =>
      cases hvc : ctx.yamlCheck (pathJoinPath ctx.defsDir y) with
      | some e =>
        simp [deploy_env, hab, hod, hvc, World.err, envEventOk,
          List.append_assoc, List.take_left, List.drop_left]
      | none =>
        by_cases hkd : (d.keep && w.fs.isDir (d.envsDir.join y.stem)) = true <;>
          simp [deploy_env, hab, hod, hvc, hkd, World.note, World.writeFile,
            World.runCmd, FS.writeFileSet, envEventOk,
            List.append_assoc, List.take_left, List.drop_left]

theorem deploy_env_events (ctx : DeployCtx) (d : Deployer) (y : PyPath) (w : World) :
    ∃ evs, (deploy_env ctx d y w).2.events = w.events ++ evs ∧
      evs.all envEventOk = true ∧
      (deploy_env ctx d y w).2.fs.dirs = w.fs.dirs := by
  obtain ⟨h1, h2, h3⟩ := deploy_env_events_core ctx d y w
  refine ⟨(deploy_env ctx d y w).2.events.drop w.events.length, ?_, h2, h3⟩
  conv_lhs => rw [← List.take_append_drop w.events.length (deploy_env ctx d y w).2.events]
  rw [h1]

theorem isDir_mkdirSet (fs : FS) (p q : PyPath) (par : Bool)
    (h : fs.isDir q = true) : (fs.mkdirSet p par).isDir q = true := by
  have hq : q ∈ fs.dirs := by simpa [FS.isDir] using h
  simp only [FS.mkdirSet, FS.isDir, List.contains_eq_any_beq, List.any_eq_true,
    beq_iff_eq]
  exact ⟨q, List.mem_cons_of_mem _ (List.mem_append_right _ hq), rfl⟩

theorem isDir_mkdirSet_self (fs : FS) (p : PyPath) (par : Bool) :
    (fs.mkdirSet p par).isDir p = true := by
  simp only [FS.mkdirSet, FS.isDir, List.contains_eq_any_beq, List.any_eq_true,
    beq_iff_eq]
  exact ⟨p, List.mem_cons_self _ _, rfl⟩

theorem deploy_conda_environments_events (ctx : DeployCtx) (d : Deployer)
    (ys : List PyPath) :
    ∀ w : World,
      ∃ evs, (deploy_conda_environments ctx d ys w).events = w.events ++ evs ∧
        evs.all envEventOk = true ∧
        (deploy_conda_environments ctx d ys w).fs.dirs = w.fs.dirs := by
  induction ys with
  | nil => exact fun w => ⟨[], by simp [deploy_conda_environments], by simp,
      by simp [deploy_conda_environments]⟩
  | cons y rest ih =>
    intro w
    simp only [deploy_conda_environments]
    obtain ⟨evs1, he1, ha1, hd1⟩ := deploy_env_events ctx d y (w.note ("env_yaml=" ++ y.toStr))
    set w1 := deploy_env ctx d y (w.note ("env_yaml=" ++ y.toStr)) with hw1
    by_cases hrc : w1.1 ≠ 0
    · rw [if_pos hrc]
      obtain ⟨evs2, he2, ha2, hd2⟩ := ih
        (w1.2.err ("Failed to deploy environment " ++ y.toStr ++ " exit code " ++
          toString w1.1))
      refine ⟨[.logInfo ("env_yaml=" ++ y.toStr)] ++ evs1 ++ [.logErr
        ("Failed to deploy environment " ++ y.toStr ++ " exit code " ++
          toString w1.1)] ++ evs2, ?_, ?_, ?_⟩
      · rw [he2]
        simp only [World.err, he1]
        simp [World.note, List.append_assoc]
      · simp only [List.all_append, ha1, ha2, Bool.and_true, Bool.true_and]
        simp [envEventOk]
      · rw [hd2]
        simp only [World.err]
        rw [hd1]
        simp [World.note]
    · rw [if_neg hrc]
      obtain ⟨evs2, he2, ha2, hd2⟩ := ih w1.2
      refine ⟨[.logInfo ("env_yaml=" ++ y.toStr)] ++ evs1 ++ evs2, ?_, ?_, ?_⟩
      · rw [he2, he1]
        simp [World.note, List.append_assoc]
      · simp only [List.all_append, ha1, ha2, Bool.and_true, Bool.true_and]
        simp [envEventOk]
      · rw [hd2, hd1]
        simp [World.note]

/-- A dry-run `deploy_tier_main` appends only classified events (no tree
copy, and directory creation only of the production path with parents, of
the tier path, and of the tier's `logs/` directory), and when it completes
the tier path was validated as contained in the target and is a directory
in the final state. -/
theorem deploy_tier_main_dry (ctx : DeployCtx) (target : PyPath) (tier : String)
    (offline : Bool) (mode : Option String) (w : World) :
    ∃ evs,
      (deploy_tier_main ctx target tier true offline mode w).2.events =
        w.events ++ evs ∧
      evs.all (dryRunEventOk (validate_tier_path target "production")
        (validate_tier_path target tier)) = true ∧
      ((deploy_tier_main ctx target tier true offline mode w).1 = .completed →
        validate_safe_path (validate_tier_path target tier) target = true ∧
        (deploy_tier_main ctx target tier true offline mode w).2.fs.isDir
          (validate_tier_path target tier) = true) := by
  obtain ⟨evs0, he0, ha0, hfs0⟩ := check_mamba_events ctx w
  cases hcm : check_mamba ctx w with
  | mk cm1 w1 =>
  have hw1e : w1.events = w.events ++ evs0 := by rw [hcm] at he0; exact he0
  cases cm1 with
  | error code =>
    have hres : deploy_tier_main ctx target tier true offline mode w =
        (.exited code, w1) := by
      simp only [deploy_tier_main, hcm]
    rw [hres]
    exact ⟨evs0, hw1e, allImp _ (logOk_dry _ _) ha0, by simp⟩
  | ok u =>
    obtain ⟨evs1, he1, ha1⟩ := setup_tier_path_events target "production" w1
    cases hsp : setup_tier_path target "production" w1 with
    | mk sp1 w2 =>
    have hw2e : w2.events = w1.events ++ evs1 := by rw [hsp] at he1; exact he1
    cases sp1 with
    | error code =>
      have hres : deploy_tier_main ctx target tier true offline mode w =
          (.exited code, w2) := by
        simp only [deploy_tier_main, hcm, hsp]
      rw [hres]
      refine ⟨evs0 ++ evs1, by rw [hw2e, hw1e, List.append_assoc], ?_, by simp⟩
      simp only [List.all_append, Bool.and_eq_true]
      exact ⟨allImp _ (logOk_dry _ _) ha0, allImp _ (setupOk_dry_pp _ _) ha1⟩
    | ok prodPath =>
      have hspok := setup_tier_path_ok target "production" w1 prodPath (by rw [hsp])
      obtain ⟨evs2, he2, ha2⟩ := setup_tier_path_events target tier w2
      cases hst : setup_tier_path target tier w2 with
      | mk st1 w3 =>
      have hw3e : w3.events = w2.events ++ evs2 := by rw [hst] at he2; exact he2
      cases st1 with
      | error code =>
        have hres : deploy_tier_main ctx target tier true offline mode w =
            (.exited code, w3) := by
          simp only [deploy_tier_main, hcm, hsp, hst]
        rw [hres]
        refine ⟨evs0 ++ evs1 ++ evs2,
          by rw [hw3e, hw2e, hw1e]; simp [List.append_assoc], ?_, by simp⟩
        simp only [List.all_append, Bool.and_eq_true]
        exact ⟨⟨allImp _ (logOk_dry _ _) ha0, allImp _ (setupOk_dry_pp _ _) ha1⟩,
          allImp _ (setupOk_dry_tp _ _) ha2⟩
      | ok tierPath =>
        obtain ⟨htp, hsafe, hdirw3, hmono⟩ :=
          setup_tier_path_ok target tier w2 tierPath (by rw [hst])
        have hdir3 : w3.fs.isDir tierPath = true := by rw [hst] at hdirw3; exact hdirw3
        obtain ⟨hpp, -, -, -⟩ := hspok
        subst htp
        subst hpp
        by_cases heq : validate_tier_path target tier =
            validate_tier_path target "production"
        · have hres : deploy_tier_main ctx target tier true offline mode w =
              (.exited 4, w3.crit ("Cannot modify production tier: tier=" ++ tier ++
                " resolves to " ++ (validate_tier_path target tier).toStr)) := by
            simp only [deploy_tier_main, hcm, hsp, hst]
            rw [if_pos heq]
          rw [hres]
          refine ⟨evs0 ++ evs1 ++ evs2 ++
            [.logCritical ("Cannot modify production tier: tier=" ++ tier ++
              " resolves to " ++ (validate_tier_path target tier).toStr)], ?_, ?_, by simp⟩
          · simp only [World.crit]
            rw [hw3e, hw2e, hw1e]
            simp [List.append_assoc]
          · simp only [List.all_append, Bool.and_eq_true]
            refine ⟨⟨⟨allImp _ (logOk_dry _ _) ha0, allImp _ (setupOk_dry_pp _ _) ha1⟩,
              allImp _ (setupOk_dry_tp _ _) ha2⟩, ?_⟩
            simp [dryRunEventOk]
        · have hresetW :
              ∀ w4 : World, w4.fs.isDir (validate_tier_path target tier) = true →
              ∃ evs45,
                (deploy_conda_environments ctx
                  (MambaDeployer.init (validate_tier_path target tier) true offline
                    (mode == some "keep") w4).1 ctx.worklist
                  (if (MambaDeployer.init (validate_tier_path target tier) true offline
                        (mode == some "keep") w4).1.keep = true then
                    ((MambaDeployer.init (validate_tier_path target tier) true offline
                        (mode == some "keep") w4).2).runCmd [ctx.mamba.toStr, "info"]
                  else
                    (MambaDeployer.init (validate_tier_path target tier) true offline
                      (mode == some "keep") w4).2)).events = w4.events ++ evs45 ∧
                evs45.all (dryRunEventOk (validate_tier_path target "production")
                  (validate_tier_path target tier)) = true ∧
                (deploy_conda_environments ctx
                  (MambaDeployer.init (validate_tier_path target tier) true offline
                    (mode == some "keep") w4).1 ctx.worklist
                  (if (MambaDeployer.init (validate_tier_path target tier) true offline
                        (mode == some "keep") w4).1.keep = true then
                    ((MambaDeployer.init (validate_tier_path target tier) true offline
                        (mode == some "keep") w4).2).runCmd [ctx.mamba.toStr, "info"]
                  else
                    (MambaDeployer.init (validate_tier_path target tier) true offline
                      (mode == some "keep") w4).2)).fs.isDir
                  (validate_tier_path target tier) = true := by
            intro w4 hdir4
            set d := (MambaDeployer.init (validate_tier_path target tier) true offline
              (mode == some "keep") w4).1 with hd
            set w5 := (MambaDeployer.init (validate_tier_path target tier) true offline
              (mode == some "keep") w4).2 with hw5
            have hw5e : w5.events = w4.events ++
                [.mkdirEv ((validate_tier_path target tier).join "logs") true] := by
              rw [hw5]; simp [MambaDeployer.init, World.mkdir]
            have hw5fs : w5.fs.isDir (validate_tier_path target tier) = true := by
              rw [hw5]; simp only [MambaDeployer.init, World.mkdir]
              exact isDir_mkdirSet _ _ _ _ hdir4
            by_cases hkp : d.keep = true
            · obtain ⟨evs5, he5, ha5, hd5⟩ := deploy_conda_environments_events ctx d
                ctx.worklist (w5.runCmd [ctx.mamba.toStr, "info"])
              rw [if_pos hkp]
              refine ⟨[.mkdirEv ((validate_tier_path target tier).join "logs") true,
                .runEv [ctx.mamba.toStr, "info"]] ++ evs5, ?_, ?_, ?_⟩
              · rw [he5]
                simp only [World.runCmd]
                rw [hw5e]
                simp [List.append_assoc]
              · simp only [List.all_append, Bool.and_eq_true]
                refine ⟨?_, allImp _ (envOk_dry _ _) ha5⟩
                simp [dryRunEventOk]
              · simp only [FS.isDir] at hw5fs ⊢
                rw [hd5]
                simpa [World.runCmd] using hw5fs
            · obtain ⟨evs5, he5, ha5, hd5⟩ := deploy_conda_environments_events ctx d
                ctx.worklist w5
              rw [if_neg hkp]
              refine ⟨[.mkdirEv ((validate_tier_path target tier).join "logs") true]
                ++ evs5, ?_, ?_, ?_⟩
              · rw [he5, hw5e]
                simp [List.append_assoc]
              · simp only [List.all_append, Bool.and_eq_true]
                refine ⟨?_, allImp _ (envOk_dry _ _) ha5⟩
                simp [dryRunEventOk]
              · simp only [FS.isDir] at hw5fs ⊢
                rw [hd5]
                exact hw5fs
          by_cases hrs : (w3.fs.pathExists (validate_tier_path target tier) &&
              ¬(mode == some "keep") &&
              (pyMatchResetName tier || mode == some "force")) = true
          · have hdk : (MambaDeployer.init (validate_tier_path target tier) true offline
                (mode == some "keep")
                ((w3.rmtree (validate_tier_path target tier)).mkdir
                  (validate_tier_path target tier) false)).1.dryRun = true := by
              simp [MambaDeployer.init]
            have hres : deploy_tier_main ctx target tier true offline mode w =
                (.completed, deploy_conda_environments ctx
                  (MambaDeployer.init (validate_tier_path target tier) true offline
                    (mode == some "keep")
                    ((w3.rmtree (validate_tier_path target tier)).mkdir
                      (validate_tier_path target tier) false)).1 ctx.worklist
                  (if (MambaDeployer.init (validate_tier_path target tier) true offline
                        (mode == some "keep")
                        ((w3.rmtree (validate_tier_path target tier)).mkdir
                          (validate_tier_path target tier) false)).1.keep = true then
                    ((MambaDeployer.init (validate_tier_path target tier) true offline
                        (mode == some "keep")
                        ((w3.rmtree (validate_tier_path target tier)).mkdir
                          (validate_tier_path target tier) false)).2).runCmd
                      [ctx.mamba.toStr, "info"]
                  else
                    (MambaDeployer.init (validate_tier_path target tier) true offline
                      (mode == some "keep")
                      ((w3.rmtree (validate_tier_path target tier)).mkdir
                        (validate_tier_path target tier) false)).2)) := by
              simp only [deploy_tier_main, hcm, hsp, hst]
              rw [if_neg heq, if_pos hrs, if_pos hdk]
            obtain ⟨evs45, he45, ha45, hd45⟩ := hresetW
              ((w3.rmtree (validate_tier_path target tier)).mkdir
                (validate_tier_path target tier) false)
              (by simp only [World.rmtree, World.mkdir]; exact isDir_mkdirSet_self _ _ _)
            rw [hres]
            refine ⟨evs0 ++ evs1 ++ evs2 ++
              ([.rmtreeEv (validate_tier_path target tier),
                .mkdirEv (validate_tier_path target tier) false] ++ evs45), ?_, ?_, ?_⟩
            · rw [he45]
              simp only [World.rmtree, World.mkdir]
              rw [hw3e, hw2e, hw1e]
              simp [List.append_assoc]
            · simp only [List.all_append, Bool.and_eq_true]
              refine ⟨⟨⟨allImp _ (logOk_dry _ _) ha0, allImp _ (setupOk_dry_pp _ _) ha1⟩,
                allImp _ (setupOk_dry_tp _ _) ha2⟩, ?_, ha45⟩
              simp [dryRunEventOk]
            · intro _
              exact ⟨hsafe, hd45⟩
          · have hdk : (MambaDeployer.init (validate_tier_path target tier) true
                offline (mode == some "keep") w3).1.dryRun = true := by
              simp [MambaDeployer.init]
            have hres : deploy_tier_main ctx target tier true offline mode w =
                (.completed, deploy_conda_environments ctx
                  (MambaDeployer.init (validate_tier_path target tier) true offline
                    (mode == some "keep") w3).1 ctx.worklist
                  (if (MambaDeployer.init (validate_tier_path target tier) true offline
                        (mode == some "keep") w3).1.keep = true then
                    ((MambaDeployer.init (validate_tier_path target tier) true offline
                        (mode == some "keep") w3).2).runCmd [ctx.mamba.toStr, "info"]
                  else
                    (MambaDeployer.init (validate_tier_path target tier) true offline
                      (mode == some "keep") w3).2)) := by
              simp only [deploy_tier_main, hcm, hsp, hst]
              rw [if_neg heq, if_neg hrs, if_pos hdk]
            obtain ⟨evs45, he45, ha45, hd45⟩ := hresetW w3 hdir3
            rw [hres]
            refine ⟨evs0 ++ evs1 ++ evs2 ++ evs45, ?_, ?_, ?_⟩
            · rw [he45, hw3e, hw2e, hw1e]
              simp [List.append_assoc]
            · simp only [List.all_append, Bool.and_eq_true]
              exact ⟨⟨⟨allImp _ (logOk_dry _ _) ha0, allImp _ (setupOk_dry_pp _ _) ha1⟩,
                allImp _ (setupOk_dry_tp _ _) ha2⟩, ha45⟩
            · intro _
              exact ⟨hsafe, hd45⟩

theorem join_parts (p : PyPath) (s : String) (hs : pathComps s = [s]) :
    (p.join s).parts = p.parts ++ [s] := by
  simp [PyPath.join, hs]

theorem mem_ancestorsOf {q x : PyPath} (hx : x ∈ ancestorsOf q) :
    ∃ i, i < q.parts.length ∧ x = ⟨q.absolute, q.parts.take (i + 1)⟩ := by
  simp only [ancestorsOf, List.mem_map, List.mem_range] at hx
  obtain ⟨i, hi, hxi⟩ := hx
  exact ⟨i, hi, hxi.symm⟩

theorem ancestors_contains_false {q p : PyPath}
    (h : ∀ i, i < q.parts.length → p ≠ ⟨q.absolute, q.parts.take (i + 1)⟩) :
    (ancestorsOf q).contains p = false := by
  rw [List.contains_eq_any_beq, List.any_eq_false]
  intro x hx
  obtain ⟨i, hi, hxi⟩ := mem_ancestorsOf hx
  subst hxi
  exact fun hc => h i hi (beq_iff_eq.mp hc)

/-- A `mkdir` of `tp` itself (with or without parents) never creates
`tp/sub`. -/
theorem createsDir_mkdir_self (tp : PyPath) (sub : String) (par : Bool)
    (hsub : pathComps sub = [sub]) :
    (FSEvent.mkdirEv tp par).createsDir (tp.join sub) = false := by
  have hparts : (tp.join sub).parts = tp.parts ++ [sub] := join_parts tp sub hsub
  have hlen : (tp.join sub).parts.length = tp.parts.length + 1 := by simp [hparts]
  have hne : tp ≠ tp.join sub := by
    intro h
    have h2 := congrArg (fun x : PyPath => x.parts.length) h
    simp only [hlen] at h2
    omega
  have hanc : (ancestorsOf tp).contains (tp.join sub) = false := by
    apply ancestors_contains_false
    intro i hi hcp
    have h2 := congrArg (fun x : PyPath => x.parts.length) hcp
    simp only [hlen] at h2
    have htl : (tp.parts.take (i + 1)).length ≤ tp.parts.length := by
      rw [List.length_take]; omega
    omega
  simp only [FSEvent.createsDir]
  rw [hanc]
  simp [hne]

/-- A `mkdir` of the sibling `tp/s` never creates `tp/sub` when
`sub ≠ s`. -/
theorem createsDir_mkdir_sibling (tp : PyPath) (s sub : String) (par : Bool)
    (hs : pathComps s = [s]) (hsub : pathComps sub = [sub]) (hne : sub ≠ s) :
    (FSEvent.mkdirEv (tp.join s) par).createsDir (tp.join sub) = false := by
  have hq : (tp.join s).parts = tp.parts ++ [s] := join_parts tp s hs
  have hp : (tp.join sub).parts = tp.parts ++ [sub] := join_parts tp sub hsub
  have hqp : tp.join s ≠ tp.join sub := by
    intro h
    have h2 := congrArg PyPath.parts h
    rw [hq, hp] at h2
    have h3 := List.append_cancel_left h2
    simp only [List.cons.injEq, and_true] at h3
    exact hne h3.symm
  have hanc : (ancestorsOf (tp.join s)).contains (tp.join sub) = false := by
    apply ancestors_contains_false
    intro i hi hcp
    have hlq : (tp.join s).parts.length = tp.parts.length + 1 := by simp [hq]
    have hlp := congrArg (fun x : PyPath => x.parts.length) hcp
    simp only [hp] at hlp
    have htk : (((tp.join s).parts).take (i + 1)).length = i + 1 := by
      rw [List.length_take]
      omega
    simp only [htk, List.length_append, List.length_singleton] at hlp
    have hfull : i + 1 = (tp.join s).parts.length := by omega
    rw [hfull, List.take_length] at hcp
    exact hqp (by rw [hcp])
  simp only [FSEvent.createsDir]
  rw [hanc]
  simp [hqp]

theorem normComps_append_no_dd (A B : List String) (hB : ∀ b ∈ B, b ≠ "..") :
    normComps (A ++ B) = normComps A ++ B := by
  unfold normComps
  rw [List.foldl_append]
  generalize (A.foldl (fun acc c => if c = ".." then acc.tail else c :: acc) []) = acc
  induction B generalizing acc with
  | nil => simp
  | cons b B' ih =>
    have hb : b ≠ ".." := hB b (List.mem_cons_self _ _)
    simp only [List.foldl_cons, if_neg hb]
    rw [ih (fun x hx => hB x (List.mem_cons_of_mem _ hx)) (b :: acc)]
    simp

theorem prod_path_parts (target : PyPath) :
    (validate_tier_path target "production").parts =
      normComps target.parts ++ ["infrastructure", "production"] := by
  have h1 : pathComps "infrastructure" = ["infrastructure"] := by decide
  have h2 : pathComps "production" = ["production"] := by decide
  show normComps ((target.parts ++ pathComps "infrastructure") ++ pathComps "production") =
    normComps target.parts ++ ["infrastructure", "production"]
  rw [h1, h2, List.append_assoc]
  exact normComps_append_no_dd _ _ (by decide)

theorem initSeg_facts {a b : List String} (h : initSeg a b = true) :
    a.length ≤ b.length ∧ b.take a.length = a := by
  unfold initSeg at h
  have he : b.take a.length = a := by simpa using h
  have hl := congrArg List.length he
  rw [List.length_take] at hl
  exact ⟨by omega, he⟩

/-- With the tier path contained in the target, a `mkdir` of the
production path (with parents) never creates `tierpath/sub` for a
component that is neither `infrastructure` nor `production`. -/
theorem createsDir_mkdir_prod (target : PyPath) (tier : String) (sub : String)
    (par : Bool) (hsub : pathComps sub = [sub])
    (hs1 : sub ≠ "infrastructure") (hs2 : sub ≠ "production")
    (hsafe : validate_safe_path (validate_tier_path target tier) target = true) :
    (FSEvent.mkdirEv (validate_tier_path target "production") par).createsDir
      ((validate_tier_path target tier).join sub) = false := by
  have hppp := prod_path_parts target
  have hseg : initSeg (normComps target.parts)
      (validate_tier_path target tier).parts = true := by
    have h := hsafe
    unfold validate_safe_path at h
    rw [Bool.and_eq_true] at h
    exact h.1
  obtain ⟨hlen, htake⟩ := initSeg_facts hseg
  have hjp : ((validate_tier_path target tier).join sub).parts =
      (validate_tier_path target tier).parts ++ [sub] := join_parts _ _ hsub
  have key : ∀ k, (validate_tier_path target tier).parts ++ [sub] ≠
      ((normComps target.parts) ++ ["infrastructure", "production"]).take k := by
    intro k hk
    have hlk := congrArg List.length hk
    rw [List.length_append, List.length_take, List.length_append] at hlk
    simp only [List.length_singleton, List.length_cons, List.length_nil] at hlk
    by_cases hk2 : (normComps target.parts).length + 2 ≤ k
    · rw [List.take_of_length_le (by simp; omega)] at hk
      have hlast := congrArg List.getLast? hk
      rw [List.getLast?_concat] at hlast
      have : ((normComps target.parts) ++ ["infrastructure", "production"]) =
          ((normComps target.parts) ++ ["infrastructure"]) ++ ["production"] := by
        simp
      rw [this, List.getLast?_concat] at hlast
      exact hs2 (by injection hlast)
    · have hkeq : k = (normComps target.parts).length + 1 := by omega
      subst hkeq
      have htk : ((normComps target.parts) ++ ["infrastructure", "production"]).take
          ((normComps target.parts).length + 1) =
          (normComps target.parts) ++ ["infrastructure"] := by
        rw [List.take_append]
        rfl
      rw [htk] at hk
      have hlast := congrArg List.getLast? hk
      rw [List.getLast?_concat, List.getLast?_concat] at hlast
      exact hs1 (by injection hlast)
  have hne : (validate_tier_path target tier).join sub ≠
      validate_tier_path target "production" := by
    intro h
    have h2 := congrArg PyPath.parts h
    rw [hjp, hppp] at h2
    refine key ((normComps target.parts).length + 2) ?_
    rw [List.take_of_length_le (by simp)]
    exact h2
  have hanc : (ancestorsOf (validate_tier_path target "production")).contains
      ((validate_tier_path target tier).join sub) = false := by
    apply ancestors_contains_false
    intro i hi hcp
    have h2 := congrArg PyPath.parts hcp
    simp only at h2
    rw [hjp, hppp] at h2
    exact key (i + 1) h2
  simp only [FSEvent.createsDir]
  rw [hanc]
  simp
  exact fun h => hne h.symm

/-- Any event a contained dry run may append is neither a tree copy nor a
creation of `tierpath/sub` for `sub` outside the reserved component
names. -/
theorem dry_event_frame (target : PyPath) (tier sub : String) (e : FSEvent)
    (hsub : pathComps sub = [sub])
    (h1 : sub ≠ "logs") (h2 : sub ≠ "infrastructure") (h3 : sub ≠ "production")
    (hsafe : validate_safe_path (validate_tier_path target tier) target = true)
    (hde : dryRunEventOk (validate_tier_path target "production")
      (validate_tier_path target tier) e = true) :
    e.isCopy = false ∧
    e.createsDir ((validate_tier_path target tier).join sub) = false := by
  cases e with
  | mkdirEv q par =>
    simp only [dryRunEventOk, Bool.or_eq_true, Bool.and_eq_true, beq_iff_eq] at hde
    refine ⟨rfl, ?_⟩
    rcases hde with (⟨hq, hpar⟩ | hq) | ⟨hq, hpar⟩
    · subst hq
      exact createsDir_mkdir_prod target tier sub par hsub h2 h3 hsafe
    · subst hq
      exact createsDir_mkdir_self _ sub par hsub
    · subst hq
      exact createsDir_mkdir_sibling _ "logs" sub par (by decide) hsub h1
  | rmtreeEv q => exact ⟨rfl, rfl⟩
  | copytreeEv s d sl => simp [dryRunEventOk] at hde
  | writeFileEv p => exact ⟨rfl, rfl⟩
  | runEv a => exact ⟨rfl, rfl⟩
  | logWarn m => exact ⟨rfl, rfl⟩
  | logInfo m => exact ⟨rfl, rfl⟩
  | logErr m => exact ⟨rfl, rfl⟩
  | logCritical m => exact ⟨rfl, rfl⟩

/-- The disk-space preflight of `deploy_tier` either aborts with exit code
4 and a single critical log line, or hands over to the main pipeline with
an unchanged filesystem and at most one log line appended. -/
theorem deploy_tier_cases (ctx : DeployCtx) (target : PyPath) (tier : String)
    (dryRun offline : Bool) (mode : Option String) (w : World) :
    (∃ m, deploy_tier ctx target tier dryRun offline mode w = (.exited 4, w.crit m)) ∨
    (∃ w0 : World, w0.fs = w.fs ∧
      (∃ evs0, w0.events = w.events ++ evs0 ∧ evs0.all logEventOk = true) ∧
      deploy_tier ctx target tier dryRun offline mode w =
        deploy_tier_main ctx target tier dryRun offline mode w0) := by
  cases hdc : check_disk_space ctx.availableGb "deploy" (ctx.worklist.map ctx.envSize)
      (mode == some "force") with
  | error e =>
    refine Or.inl ⟨e, ?_⟩
    simp only [deploy_tier, hdc]
  | ok res =>
    by_cases hmsg : res.2 ≠ ""
    · by_cases hwarn : (strStarts res.2 "WARNING:" || strStarts res.2 "ERROR:") = true
      · refine Or.inr ⟨w.warn res.2, rfl,
          ⟨[.logWarn res.2], by simp [World.warn], by simp [logEventOk]⟩, ?_⟩
        simp only [deploy_tier, hdc]
        rw [if_pos hmsg, if_pos hwarn]
      · refine Or.inr ⟨w.note res.2, rfl,
          ⟨[.logInfo res.2], by simp [World.note], by simp [logEventOk]⟩, ?_⟩
        simp only [deploy_tier, hdc]
        rw [if_pos hmsg, if_neg hwarn]
    · refine Or.inr ⟨w, rfl, ⟨[], by simp, rfl⟩, ?_⟩
      simp only [deploy_tier, hdc]
      rw [if_neg hmsg]

theorem logOk_nondes (e : FSEvent) (h : logEventOk e = true) :
    (!e.destructive) = true := by
  cases e <;> simp_all [logEventOk, FSEvent.destructive]

theorem setupOk_nondes (tp : PyPath) (e : FSEvent) (h : setupEventOk tp e = true) :
    (!e.destructive) = true := by
  cases e <;> simp_all [setupEventOk, FSEvent.destructive]

/-- When the requested tier resolves to the production path,
`deploy_tier_main` never completes, and every appended event is
non-destructive (no tree removal or copy). -/
theorem deploy_tier_main_collision (ctx : DeployCtx) (target : PyPath)
    (tier : String) (dryRun offline : Bool) (mode : Option String) (w : World)
    (hcollide : validate_tier_path target tier = validate_tier_path target "production") :
    (deploy_tier_main ctx target tier dryRun offline mode w).1 ≠ .completed ∧
    ∃ evs, (deploy_tier_main ctx target tier dryRun offline mode w).2.events =
        w.events ++ evs ∧
      evs.all (fun e => !e.destructive) = true := by
  obtain ⟨evs0, he0, ha0, hfs0⟩ := check_mamba_events ctx w
  cases hcm : check_mamba ctx w with
  | mk cm1 w1 =>
  have hw1e : w1.events = w.events ++ evs0 := by rw [hcm] at he0; exact he0
  cases cm1 with
  | error code =>
    have hres : deploy_tier_main ctx target tier dryRun offline mode w =
        (.exited code, w1) := by
      simp only [deploy_tier_main, hcm]
    rw [hres]
    exact ⟨by simp, evs0, hw1e, allImp _ logOk_nondes ha0⟩
  | ok u =>
    obtain ⟨evs1, he1, ha1⟩ := setup_tier_path_events target "production" w1
    cases hsp : setup_tier_path target "production" w1 with
    | mk sp1 w2 =>
    have hw2e : w2.events = w1.events ++ evs1 := by rw [hsp] at he1; exact he1
    cases sp1 with
    | error code =>
      have hres : deploy_tier_main ctx target tier dryRun offline mode w =
          (.exited code, w2) := by
        simp only [deploy_tier_main, hcm, hsp]
      rw [hres]
      refine ⟨by simp, evs0 ++ evs1, by rw [hw2e, hw1e, List.append_assoc], ?_⟩
      simp only [List.all_append, Bool.and_eq_true]
      exact ⟨allImp _ logOk_nondes ha0, allImp _ (setupOk_nondes _) ha1⟩
    | ok prodPath =>
      have hspok := setup_tier_path_ok target "production" w1 prodPath (by rw [hsp])
      obtain ⟨evs2, he2, ha2⟩ := setup_tier_path_events target tier w2
      cases hst : setup_tier_path target tier w2 with
      | mk st1 w3 =>
      have hw3e : w3.events = w2.events ++ evs2 := by rw [hst] at he2; exact he2
      cases st1 with
      | error code =>
        have hres : deploy_tier_main ctx target tier dryRun offline mode w =
            (.exited code, w3) := by
          simp only [deploy_tier_main, hcm, hsp, hst]
        rw [hres]
        refine ⟨by simp, evs0 ++ evs1 ++ evs2,
          by rw [hw3e, hw2e, hw1e]; simp [List.append_assoc], ?_⟩
        simp only [List.all_append, Bool.and_eq_true]
        exact ⟨⟨allImp _ logOk_nondes ha0, allImp _ (setupOk_nondes _) ha1⟩,
          allImp _ (setupOk_nondes _) ha2⟩
      | ok tierPath =>
        obtain ⟨htp, -, -, -⟩ := setup_tier_path_ok target tier w2 tierPath (by rw [hst])
        obtain ⟨hpp, -, -, -⟩ := hspok
        subst htp
        subst hpp
        have hres : deploy_tier_main ctx target tier dryRun offline mode w =
            (.exited 4, w3.crit ("Cannot modify production tier: tier=" ++ tier ++
              " resolves to " ++ (validate_tier_path target tier).toStr)) := by
          simp only [deploy_tier_main, hcm, hsp, hst]
          rw [if_pos hcollide]
        rw [hres]
        refine ⟨by simp, evs0 ++ evs1 ++ evs2 ++
          [.logCritical ("Cannot modify production tier: tier=" ++ tier ++
            " resolves to " ++ (validate_tier_path target tier).toStr)], ?_, ?_⟩
        · simp only [World.crit]
          rw [hw3e, hw2e, hw1e]
          simp [List.append_assoc]
        · simp only [List.all_append, Bool.and_eq_true]
          exact ⟨⟨⟨allImp _ logOk_nondes ha0, allImp _ (setupOk_nondes _) ha1⟩,
            allImp _ (setupOk_nondes _) ha2⟩, by simp [FSEvent.destructive]⟩

/-- C2 amended: whenever the requested tier resolves to the same path as
`production`, `deploy_tier` aborts (it never completes) and performs no
destructive filesystem mutation — no tree removal and no tree copy — though
`setup_tier_path` may already have created the production/tier directory
before the abort. -/
theorem deploy_tier_production_collision_aborts (ctx : DeployCtx) (target : PyPath)
    (tier : String) (dryRun offline : Bool) (mode : Option String) (w : World)
    (hcollide : validate_tier_path target tier = validate_tier_path target "production") :
    (deploy_tier ctx target tier dryRun offline mode w).1 ≠ .completed ∧
    ((deploy_tier ctx target tier dryRun offline mode w).2.events.drop
        w.events.length).all (fun e => !e.destructive) = true := by
  rcases deploy_tier_cases ctx target tier dryRun offline mode w with
    ⟨m, hcase⟩ | ⟨w0, hfs0, ⟨evs0, he0, ha0⟩, hcase⟩
  · rw [hcase]
    refine ⟨by simp, ?_⟩
    simp [World.crit, List.drop_left, FSEvent.destructive]
  · rw [hcase]
    obtain ⟨hne, evs, hev, hall⟩ :=
      deploy_tier_main_collision ctx target tier dryRun offline mode w0 hcollide
    refine ⟨hne, ?_⟩
    rw [hev, he0, List.append_assoc, List.drop_left]
    simp only [List.all_append, Bool.and_eq_true]
    exact ⟨allImp _ logOk_nondes ha0, hall⟩

/-- Witness for the amended C2 at the concrete tier name "production". -/
theorem deploy_tier_production_collision_aborts_witness :
    validate_tier_path sampleTarget "production" =
      validate_tier_path sampleTarget "production" ∧
    ((deploy_tier sampleCtx sampleTarget "production" false false none
        sampleWorld).1 ≠ .completed ∧
      ((deploy_tier sampleCtx sampleTarget "production" false false none
          sampleWorld).2.events.drop sampleWorld.events.length).all
        (fun e => !e.destructive) = true) :=
  ⟨rfl, deploy_tier_production_collision_aborts sampleCtx sampleTarget "production"
    false false none sampleWorld rfl⟩

/-- C2 counterexample: deploying tier "production" to a fresh target
aborts with exit code 4, but at that moment a filesystem mutation has
already been performed — the production directory did not exist before the
run and exists after it (created by `setup_tier_path` before the guard). -/
theorem deploy_tier_production_collision_counterexample :
    (deploy_tier sampleCtx sampleTarget "production" false false none
      sampleWorld).1 = .exited 4 ∧
    sampleWorld.fs.isDir (validate_tier_path sampleTarget "production") = false ∧
    (deploy_tier sampleCtx sampleTarget "production" false false none
      sampleWorld).2.fs.isDir (validate_tier_path sampleTarget "production") = true := by
  decide

/-- C8: for every dry-run invocation of `deploy_tier` that returns
(completes), no event of the run copies a resource tree and no event
creates the `bin`, `etc`, or `meta` directory under the tier path, while
the tier directory itself is a directory in the final state. -/
theorem deploy_tier_dry_run_frame (ctx : DeployCtx) (target : PyPath) (tier : String)
    (offline : Bool) (mode : Option String) (w : World)
    (hdone : (deploy_tier ctx target tier true offline mode w).1 = .completed) :
    ((deploy_tier ctx target tier true offline mode w).2.events.drop
        w.events.length).all (fun e =>
      !e.isCopy &&
      !e.createsDir ((validate_tier_path target tier).join "bin") &&
      !e.createsDir ((validate_tier_path target tier).join "etc") &&
      !e.createsDir ((validate_tier_path target tier).join "meta")) = true ∧
    (deploy_tier ctx target tier true offline mode w).2.fs.isDir
      (validate_tier_path target tier) = true := by
  rcases deploy_tier_cases ctx target tier true offline mode w with
    ⟨m, hcase⟩ | ⟨w0, hfs0, ⟨evs0, he0, ha0⟩, hcase⟩
  · rw [hcase] at hdone
    simp at hdone
  · rw [hcase] at hdone ⊢
    obtain ⟨evs, hev, hall, himp⟩ := deploy_tier_main_dry ctx target tier offline mode w0
    obtain ⟨hsafe, hdir⟩ := himp hdone
    refine ⟨?_, hdir⟩
    rw [hev, he0, List.append_assoc, List.drop_left]
    simp only [List.all_append, Bool.and_eq_true]
    constructor
    · refine allImp _ (fun e he => ?_) ha0
      cases e <;> simp_all [logEventOk, FSEvent.isCopy, FSEvent.createsDir]
    · refine allImp _ (fun e he => ?_) hall
      obtain ⟨hc, hb⟩ := dry_event_frame target tier "bin" e (by decide)
        (by decide) (by decide) (by decide) hsafe he
      obtain ⟨-, het⟩ := dry_event_frame target tier "etc" e (by decide)
        (by decide) (by decide) (by decide) hsafe he
      obtain ⟨-, hmt⟩ := dry_event_frame target tier "meta" e (by decide)
        (by decide) (by decide) (by decide) hsafe he
      simp [hc, hb, het, hmt]

/-- Witness for C8: a concrete dry run to tier "staging" that completes. -/
theorem deploy_tier_dry_run_frame_witness :
    (deploy_tier sampleCtx sampleTarget "staging" true false none
      sampleWorld).1 = .completed ∧
    (((deploy_tier sampleCtx sampleTarget "staging" true false none
        sampleWorld).2.events.drop sampleWorld.events.length).all (fun e =>
      !e.isCopy &&
      !e.createsDir ((validate_tier_path sampleTarget "staging").join "bin") &&
      !e.createsDir ((validate_tier_path sampleTarget "staging").join "etc") &&
      !e.createsDir ((validate_tier_path sampleTarget "staging").join "meta")) = true ∧
    (deploy_tier sampleCtx sampleTarget "staging" true false none
      sampleWorld).2.fs.isDir (validate_tier_path sampleTarget "staging") = true) :=
  ⟨by decide, deploy_tier_dry_run_frame sampleCtx sampleTarget "staging" false none
    sampleWorld (by decide)⟩

end Submissions
